import Mathlib

/-!
Verification of two modules of the analytics-zoo repository:

* `pyzoo/zoo/automl/common/metrics.py` — regression/classification error
  metrics with input standardisation and an `Evaluator` dispatch table;
* `pyzoo/zoo/orca/data/image/parquet_dataset.py` — a chunked columnar
  dataset writer/reader with a sidecar schema descriptor.

Modelling conventions:

* Machine floats are idealised as exact rationals (`ℚ`); `np.sqrt` and
  `np.log` produce values in `ℝ`.  Division follows Lean's `q / 0 = 0`
  convention where NumPy floats would produce `nan`; each theorem that
  could be affected carries hypotheses keeping it away from such inputs.
* A NumPy `ndarray` is a shape together with its row-major flat data.
* Python exceptions are modelled by an error type returned in `Except`.
* External collaborators (sklearn metric kernels, NumPy reductions) are
  embedded by their documented behaviour on the already-validated 2-D
  inputs this code hands them.
-/

/-- Python exception kinds raised by the embedded code paths. -/
inductive PyErr where
  | valueError (msg : String)
  | attributeError (msg : String)
  | typeError (msg : String)
  | assertionError (msg : String)
  | indexError (msg : String)
  deriving DecidableEq

/-- Does the computation fail specifically with a `ValueError`? -/
def isValueErrorB {α : Type} : Except PyErr α → Bool
  | .error (.valueError _) => true
  | _ => false

/-- Does the computation fail specifically with an `AssertionError`? -/
def isAssertionErrorB {α : Type} : Except PyErr α → Bool
  | .error (.assertionError _) => true
  | _ => false

/-- A NumPy ndarray over exact rationals: shape plus row-major flat data. -/
structure NDArray where
  shape : List Nat
  data : List ℚ
  deriving DecidableEq

/-- Well-formedness of an ndarray: the flat data length is the product of the
shape.  Every ndarray NumPy can actually build satisfies this; it is carried
as a hypothesis where a theorem needs it. -/
def NDArray.wf (a : NDArray) : Prop := a.data.length = a.shape.prod

instance (a : NDArray) : Decidable a.wf := by unfold NDArray.wf; infer_instance

/-- A real-valued array, for results that pass through `np.sqrt`/`np.log`. -/
structure NDArrayR where
  shape : List Nat
  data : List ℝ

/-- The containers a metric call can receive, as far as `_standardize_input`
distinguishes them: the four supported array-likes (each carrying its numeric
payload) and anything else (`other`, e.g. a dict or set, which has neither
`astype` nor `reshape`). -/
inductive Container where
  | pyList (a : NDArray)
  | pyTuple (a : NDArray)
  | ndarray (a : NDArray)
  | dataFrame (a : NDArray)
  | other (tyName : String)
  deriving DecidableEq

/-- `EPSILON = 1e-10` (metrics.py line 25). -/
def EPSILON : ℚ := 1 / 10000000000

/-- `np.mean` of a flat list.  NumPy returns `nan` on an empty array; this
model returns `0` there via `q / 0 = 0` (every theorem about a mean keeps the
list nonempty). -/
def mean (l : List ℚ) : ℚ := l.sum / l.length

/-- Real-valued `np.mean`, for metric values living in `ℝ`. -/
noncomputable def meanR (l : List ℝ) : ℝ := l.sum / l.length

/-- Insert into a sorted list, keeping ascending order by `le`. -/
def insertLe {α : Type} (le : α → α → Bool) (x : α) : List α → List α
  | [] => [x]
  | y :: ys => if le x y then x :: y :: ys else y :: insertLe le x ys

/-- Ascending insertion sort by `le` (the sort behind `np.median` and Python's
`list.sort`). -/
def sortLe {α : Type} (le : α → α → Bool) : List α → List α
  | [] => []
  | x :: xs => insertLe le x (sortLe le xs)

/-- `np.median`: sort ascending and take the middle element (odd length) or
the mean of the two middle elements (even length). -/
def median (l : List ℚ) : ℚ :=
  let s := sortLe (fun a b => decide (a ≤ b)) l
  if s.length % 2 = 1 then s.getD (s.length / 2) 0
  else (s.getD (s.length / 2 - 1) 0 + s.getD (s.length / 2) 0) / 2

/-- Column `j` of an `n × d` row-major matrix stored as a flat list. -/
def colVals (n d : Nat) (data : List ℚ) (j : Nat) : List ℚ :=
  (List.range n).map (fun i => data.getD (i * d + j) 0)

/-- The multioutput strings `_standardize_input` accepts
(metrics.py lines 69-70). -/
def allowedMultioutput : List String :=
  ["raw_values", "uniform_average", "variance_weighted"]

/-- Is the container one of the four array-likes `_standardize_input` accepts
in its `isinstance` check (metrics.py line 37)? -/
def isSupportedContainer : Container → Bool
  | .pyList _ | .pyTuple _ | .ndarray _ | .dataFrame _ => true
  | .other _ => false

/-- `np.array` conversion applied to lists and tuples
(metrics.py lines 40-43); other containers pass through unchanged. -/
def seqToArray : Container → Container
  | .pyList a => .ndarray a
  | .pyTuple a => .ndarray a
  | c => c

/-- The both-DataFrame conversion (metrics.py lines 44-46): `to_numpy` fires
only when BOTH inputs are DataFrames; otherwise both are left as they are. -/
def dfPair : Container → Container → Container × Container
  | .dataFrame a, .dataFrame b => (.ndarray a, .ndarray b)
  | t, p => (t, p)

/-- `x.astype(np.float64)` (metrics.py lines 48-49): the identity on arrays
and DataFrames (values here are already idealised rationals); any other
object has no `astype` attribute, so Python raises `AttributeError`. -/
def astypeFloat : Container → Except PyErr Container
  | .ndarray a => .ok (.ndarray a)
  | .dataFrame a => .ok (.dataFrame a)
  | .pyList a => .ok (.ndarray a)
  | .pyTuple a => .ok (.ndarray a)
  | .other ty => .error (.attributeError (ty ++ " object has no attribute astype"))

/-- The shape of the numeric payload of an array-like container. -/
def containerShape : Container → List Nat
  | .ndarray a | .dataFrame a | .pyList a | .pyTuple a => a.shape
  | .other _ => []

/-- The 2-D reshape of `_standardize_input` (metrics.py lines 53-61):
1-D arrays become `(n, 1)`; higher-rank arrays become
`(shape[0], prod shape[1:])`; a 0-D array hits `shape[0]` and raises
`IndexError`; a DataFrame that survived to this point (only one input was a
DataFrame, so `to_numpy` did not fire) has `ndim == 2` and no `.reshape`
attribute, so Python raises `AttributeError`. -/
def reshape2d : Container → Except PyErr NDArray
  | .ndarray a =>
    if a.shape.length = 1 then .ok ⟨[a.shape.getD 0 0, 1], a.data⟩
    else if a.shape.length = 0 then .error (.indexError "tuple index out of range")
    else .ok ⟨[a.shape.getD 0 0, a.shape.tail.prod], a.data⟩
  | .dataFrame _ => .error (.attributeError "DataFrame object has no attribute reshape")
  | c => .error (.attributeError (match c with | .other ty => ty | _ => "object" ++ " has no attribute reshape"))

/-- The multioutput-independent part of `_standardize_input`
(metrics.py lines 28-68): the None check, the `isinstance` check (note: the
source checks only `y_true`), list/tuple conversion, the both-DataFrame
conversion, `astype(np.float64)` on `y_true` then `y_pred`, recording
`original_shape = y_true.shape[1:]`, the 2-D reshapes of `y_true` then
`y_pred`, and the sample/output count checks.  Returns the standardized pair
and the original per-sample shape. -/
def standardizeCore (y_true y_pred : Option Container) :
    Except PyErr (NDArray × NDArray × List Nat) :=
  match y_true, y_pred with
  | none, _ => .error (.valueError "The input is None.")
  | _, none => .error (.valueError "The input is None.")
  | some t0, some p0 =>
    if isSupportedContainer t0 = false then
      .error (.valueError "Expected array-like input.Only list/tuple/ndarray/pd.DataFrame are supported")
    else
      let tp := dfPair (seqToArray t0) (seqToArray p0)
      match astypeFloat tp.1 with
      | .error e => .error e
      | .ok t2 =>
        match astypeFloat tp.2 with
        | .error e => .error e
        | .ok p2 =>
          let origShape := (containerShape t2).tail
          match reshape2d t2 with
          | .error e => .error e
          | .ok t3 =>
            match reshape2d p2 with
            | .error e => .error e
            | .ok p3 =>
              if t3.shape.getD 0 0 ≠ p3.shape.getD 0 0 then
                .error (.valueError "y_true and y_pred have different number of samples")
              else if t3.shape.getD 1 0 ≠ p3.shape.getD 1 0 then
                .error (.valueError "y_true and y_pred have different number of output")
              else
                .ok (t3, p3, origShape)

/-- `_standardize_input` (metrics.py lines 28-77).  The multioutput string
check (lines 69-75) is the final step of the source function, performed after
all shape work, so it is layered on top of `standardizeCore`. -/
def standardize_input (y_true y_pred : Option Container) (multioutput : String) :
    Except PyErr (NDArray × NDArray × List Nat) :=
  match standardizeCore y_true y_pred with
  | .error e => .error e
  | .ok x =>
    if allowedMultioutput.contains multioutput then .ok x
    else .error (.valueError "Allowed multioutput string values are raw_values, uniform_average, variance_weighted")

/-- The per-column error list shared by every metric body: for each of the
`d` output columns, aggregate the elementwise `cell` values of the column
(`np.<agg>(cell(y_true, y_pred), axis=0)`). -/
def perColumn (t p : NDArray) (cell : ℚ → ℚ → ℚ) (agg : List ℚ → ℚ) : List ℚ :=
  let n := t.shape.getD 0 0
  let d := t.shape.getD 1 0
  (List.range d).map (fun j => agg (List.zipWith cell (colVals n d t.data j) (colVals n d p.data j)))

/-- The shared two-line tail of each hand-written metric (e.g. metrics.py
lines 96-98): `raw_values` reshapes the per-output errors to the original
per-sample shape; any other accepted mode returns `np.mean(output_errors)`. -/
def finalizeErrors (errs : List ℚ) (origShape : List Nat) (multioutput : String) : NDArray :=
  if multioutput = "raw_values" then ⟨origShape, errs⟩ else ⟨[], [mean errs]⟩

/-- The common skeleton of the hand-written metrics (`sMAPE`, `MPE`, `MAPE`,
`MDAPE`, `sMDAPE`, `ME`, `MSPE`): standardize, compute per-column errors,
finalize by multioutput mode. -/
def handwrittenMetric (cell : ℚ → ℚ → ℚ) (agg : List ℚ → ℚ)
    (y_true y_pred : Option Container) (multioutput : String) : Except PyErr NDArray :=
  match standardize_input y_true y_pred multioutput with
  | .error e => .error e
  | .ok (t, p, orig) => .ok (finalizeErrors (perColumn t p cell agg) orig multioutput)

/-- `sMAPE` (metrics.py lines 80-98):
`mean(100 * |t - p| / (|t| + |p| + EPSILON))` per column. -/
def sMAPE : Option Container → Option Container → String → Except PyErr NDArray :=
  handwrittenMetric (fun a b => 100 * |a - b| / (|a| + |b| + EPSILON)) mean

/-- `MPE` (metrics.py lines 101-118): `mean(100 * (t - p) / (t + EPSILON))`
per column. -/
def MPE : Option Container → Option Container → String → Except PyErr NDArray :=
  handwrittenMetric (fun a b => 100 * (a - b) / (a + EPSILON)) mean

/-- `MAPE` (metrics.py lines 121-138): `100 * mean(|(t - p) / (t + EPSILON)|)`
per column. -/
def MAPE : Option Container → Option Container → String → Except PyErr NDArray :=
  handwrittenMetric (fun a b => |(a - b) / (a + EPSILON)|) (fun l => 100 * mean l)

/-- `MDAPE` (metrics.py lines 141-157): `median(100 * |(t - p) / (t + EPSILON)|)`
per column. -/
def MDAPE : Option Container → Option Container → String → Except PyErr NDArray :=
  handwrittenMetric (fun a b => 100 * |(a - b) / (a + EPSILON)|) median

/-- `sMDAPE` (metrics.py lines 160-177): `median(100 * |t - p| / (|t| + |p| + EPSILON))`
per column. -/
def sMDAPE : Option Container → Option Container → String → Except PyErr NDArray :=
  handwrittenMetric (fun a b => 100 * |a - b| / (|a| + |b| + EPSILON)) median

/-- `ME` (metrics.py lines 180-196): `mean(t - p)` per column. -/
def ME : Option Container → Option Container → String → Except PyErr NDArray :=
  handwrittenMetric (fun a b => a - b) mean

/-- `MSPE` (metrics.py lines 199-217): `mean((t - p)^2)` per column. -/
def MSPE : Option Container → Option Container → String → Except PyErr NDArray :=
  handwrittenMetric (fun a b => (a - b) ^ 2) mean

/-- The common skeleton of the metrics delegated to sklearn regression
kernels (`MSE` from `mean_squared_error`, `MAE` from `mean_absolute_error`):
sklearn validates the arrays (raising `ValueError` on an empty axis),
computes per-column means of `cell`, returns them for `raw_values`, their
plain average for `uniform_average`; the string `variance_weighted` falls
through to `np.average(..., weights='variance_weighted')`, a `TypeError`.
On `raw_values` the wrapper in metrics.py reshapes to the original
per-sample shape. -/
def sklearnRegMetric (cell : ℚ → ℚ → ℚ)
    (y_true y_pred : Option Container) (multioutput : String) : Except PyErr NDArray :=
  match standardize_input y_true y_pred multioutput with
  | .error e => .error e
  | .ok (t, p, orig) =>
    if t.shape.getD 0 0 = 0 ∨ t.shape.getD 1 0 = 0 then
      .error (.valueError "Found array with 0 sample(s)")
    else
      let errs := perColumn t p cell mean
      if multioutput = "raw_values" then .ok ⟨orig, errs⟩
      else if multioutput = "uniform_average" then .ok ⟨[], [mean errs]⟩
      else .error (.typeError "np.average weights must be array-like")

/-- `MSE` (metrics.py lines 292-308), via sklearn `mean_squared_error`. -/
def MSE : Option Container → Option Container → String → Except PyErr NDArray :=
  sklearnRegMetric (fun a b => (a - b) ^ 2)

/-- `MAE` (metrics.py lines 258-274), via sklearn `mean_absolute_error`. -/
def MAE : Option Container → Option Container → String → Except PyErr NDArray :=
  sklearnRegMetric (fun a b => |a - b|)

/-- `RMSE` (metrics.py lines 277-289): literally
`np.sqrt(MSE(y_true, y_pred, multioutput=multioutput))` — the square root is
applied elementwise to whatever `MSE` returns FOR THE SAME multioutput
argument.  Note the defaults differ in the source: `RMSE` defaults to
`'raw_values'` while `MSE` defaults to `'uniform_average'`. -/
noncomputable def RMSE (y_true y_pred : Option Container) (multioutput : String) :
    Except PyErr NDArrayR :=
  (MSE y_true y_pred multioutput).map
    (fun a => ⟨a.shape, a.data.map (fun (q : ℚ) => Real.sqrt (q : ℝ))⟩)

/-- Real-valued per-column mean of `cell` over the two matrices (the
column loop of the `mean_squared_log_error` kernel). -/
noncomputable def perColumnR (t p : NDArray) (cell : ℚ → ℚ → ℝ) : List ℝ :=
  let n := t.shape.getD 0 0
  let d := t.shape.getD 1 0
  (List.range d).map (fun j =>
    meanR (List.zipWith cell (colVals n d t.data j) (colVals n d p.data j)))

/-- `MSLE` (metrics.py lines 220-236), via sklearn `mean_squared_log_error`:
sklearn validates the arrays, raises `ValueError` when any target is
negative, and otherwise computes per-column means of
`(log(1 + t) - log(1 + p))^2`; `raw_values` / `uniform_average` /
`variance_weighted` are finalized as in the other sklearn kernels, with the
metrics.py wrapper reshaping the `raw_values` result. -/
noncomputable def MSLE (y_true y_pred : Option Container) (multioutput : String) :
    Except PyErr NDArrayR :=
  match standardize_input y_true y_pred multioutput with
  | .error e => .error e
  | .ok (t, p, orig) =>
    if t.shape.getD 0 0 = 0 ∨ t.shape.getD 1 0 = 0 then
      .error (.valueError "Found array with 0 sample(s)")
    else if t.data.any (fun q => decide (q < 0)) ∨ p.data.any (fun q => decide (q < 0)) then
      .error (.valueError "Mean Squared Logarithmic Error cannot be used when targets contain negative values.")
    else
      let errs := perColumnR t p
        (fun (a b : ℚ) => (Real.log (1 + (a : ℝ)) - Real.log (1 + (b : ℝ))) ^ 2)
      if multioutput = "raw_values" then .ok ⟨orig, errs⟩
      else if multioutput = "uniform_average" then .ok ⟨[], [meanR errs]⟩
      else .error (.typeError "np.average weights must be array-like")

/-- The per-output residual sums of squares of sklearn `r2_score`:
`SSres_j = sum((t_j - p_j)^2)`. -/
def r2SSres (t p : NDArray) : List ℚ :=
  let n := t.shape.getD 0 0
  let d := t.shape.getD 1 0
  (List.range d).map (fun j =>
    (List.zipWith (fun a b => (a - b) ^ 2) (colVals n d t.data j) (colVals n d p.data j)).sum)

/-- The per-output total sums of squares of sklearn `r2_score`:
`SStot_j = sum((t_j - mean t_j)^2)`. -/
def r2SStot (t : NDArray) : List ℚ :=
  let n := t.shape.getD 0 0
  let d := t.shape.getD 1 0
  (List.range d).map (fun j =>
    let c := colVals n d t.data j
    (c.map (fun a => (a - mean c) ^ 2)).sum)

/-- The per-output scores of sklearn `r2_score`: `1 - SSres/SStot` when both
are nonzero, `0` when only `SStot` vanishes, `1` when `SSres` vanishes. -/
def r2Scores (t p : NDArray) : List ℚ :=
  List.zipWith (fun sr st => if sr ≠ 0 then (if st ≠ 0 then 1 - sr / st else 0) else 1)
    (r2SSres t p) (r2SStot t)

/-- `R2` (metrics.py lines 239-255), via sklearn `r2_score`: per output
column, `SSres = Σ (t - p)^2` and `SStot = Σ (t - mean t)^2`; the score is
`1 - SSres/SStot` when both are nonzero, `0` when only `SStot` vanishes, and
`1` when `SSres` vanishes.  With fewer than two samples sklearn warns and
returns the float `nan`, which has no rational counterpart; the model marks
that branch with an error value (no theorem relies on it).  `raw_values`
reshapes the per-output scores; `uniform_average` averages them;
`variance_weighted` weights them by `SStot`, falling back to `1`/`0` when
every `SStot` is zero. -/
def R2 (y_true y_pred : Option Container) (multioutput : String) : Except PyErr NDArray :=
  match standardize_input y_true y_pred multioutput with
  | .error e => .error e
  | .ok (t, p, orig) =>
    if t.shape.getD 0 0 < 2 then
      .error (.valueError "R^2 score is not well-defined with less than two samples.")
    else
      if multioutput = "raw_values" then .ok ⟨orig, r2Scores t p⟩
      else if multioutput = "uniform_average" then .ok ⟨[], [mean (r2Scores t p)]⟩
      else
        if (r2SStot t).all (fun w => decide (w = 0)) then
          .ok ⟨[], [if (r2SSres t p).all (fun w => decide (w = 0)) then 1 else 0]⟩
        else .ok ⟨[], [(List.zipWith (fun s w => s * w) (r2Scores t p) (r2SStot t)).sum /
          (r2SStot t).sum]⟩

/-- `np.squeeze` on the shape: drop every axis of extent 1 (the row-major
flat data is unchanged by this). -/
def squeezeShape (s : List Nat) : List Nat := s.filter (fun d => d != 1)

/-- Is the rational an integer (i.e. equal to its `astype(int)` image)? -/
def isIntRat (q : ℚ) : Bool := q.den == 1

/-- The numeric payload `np.squeeze` extracts from an array-like container;
`none` for objects NumPy cannot coerce to a numeric array. -/
def toPayload : Container → Option NDArray
  | .pyList a | .pyTuple a | .ndarray a | .dataFrame a => some a
  | .other _ => none

/-- A kernel-reducible literal for `1/2` (the `np.where(y_pred > 0.5, 1, 0)`
threshold). -/
def oneHalf : ℚ := ⟨1, 2, by decide, Nat.coprime_one_left 2⟩

/-- Index of the first maximum (`np.argmax`), accumulator form. -/
def argmaxGo (best : Nat) (bestV : ℚ) (i : Nat) : List ℚ → Nat
  | [] => best
  | x :: xs => if bestV < x then argmaxGo i x (i + 1) xs else argmaxGo best bestV (i + 1) xs

/-- `np.argmax` of a flat list: index of the first maximum (0 on empty). -/
def argmaxIdx : List ℚ → Nat
  | [] => 0
  | x :: xs => argmaxGo 0 x 1 xs

/-- `np.argmax(a, axis=1)`: for shape `s0 :: s1 :: rest`, reduce away axis 1,
producing the integer indices (as exact rationals) of the columnwise first
maxima. -/
def argmaxAxis1 (a : NDArray) : NDArray :=
  let s0 := a.shape.getD 0 0
  let s1 := a.shape.getD 1 0
  let rest := a.shape.tail.tail
  let rp := rest.prod
  ⟨s0 :: rest,
   ((List.range s0).map (fun i => (List.range rp).map (fun k =>
      ((argmaxIdx ((List.range s1).map (fun j => a.data.getD (i * (s1 * rp) + j * rp + k) 0)) : Nat) : ℚ)))).flatten⟩

/-- Number of positionally equal entries, as a rational. -/
def countEqQ (a b : List ℚ) : ℚ :=
  (List.zipWith (fun x y => if x = y then (1 : ℚ) else 0) a b).sum

/-- sklearn `accuracy_score`, by its documented behaviour on the numeric
arrays this module passes it: 0-D inputs are rejected; 1-D targets must
agree in length and be integer-valued (non-integer 1-D targets are
`continuous`, which `accuracy_score` refuses), and score the fraction of
exactly matching entries; higher-rank inputs are multilabel indicators,
which must agree in shape and be binary, scored by the fraction of exactly
matching rows; empty inputs are rejected. -/
def accuracyScore (yt yp : NDArray) : Except PyErr ℚ :=
  if yt.shape.length = 0 ∨ yp.shape.length = 0 then
    .error (.valueError "y cannot be 0-dimensional")
  else if yt.shape.length = 1 ∧ yp.shape.length = 1 then
    if yt.shape ≠ yp.shape then
      .error (.valueError "Found input variables with inconsistent numbers of samples")
    else if yt.data.any (fun q => !(isIntRat q)) ∨ yp.data.any (fun q => !(isIntRat q)) then
      .error (.valueError "continuous is not supported")
    else if yt.shape.getD 0 0 = 0 then .error (.valueError "Found array with 0 sample(s)")
    else .ok (countEqQ yt.data yp.data / yt.data.length)
  else if yt.shape ≠ yp.shape then
    .error (.valueError "Classification metrics cannot handle a mix of targets")
  else if (yt.data ++ yp.data).any (fun q => !(q == 0 || q == 1)) then
    .error (.valueError "multiclass-multioutput is not supported")
  else if yt.shape.getD 0 0 = 0 then .error (.valueError "Found array with 0 sample(s)")
  else
    let s0 := yt.shape.getD 0 0
    let rowLen := yt.shape.tail.prod
    .ok (((List.range s0).map (fun i =>
      if (yt.data.drop (i * rowLen)).take rowLen = (yp.data.drop (i * rowLen)).take rowLen
      then (1 : ℚ) else 0)).sum / s0)

/-- `Accuracy` (metrics.py lines 311-322).  Note it does NOT call
`_standardize_input`: it squeezes both inputs directly, converts a
probability-style `y_pred` (one with any non-integer entry) by thresholding
at 0.5 when 1-D or `np.argmax(axis=1)` otherwise, and hands the result to
sklearn `accuracy_score`.  The `y_pred != y_pred.astype(int)` probe on
`None` or a non-numeric container raises `TypeError` (`astype(int)` of an
object array); `np.argmax(..., axis=1)` on a squeezed 0-D probability raises
`np.AxisError`, a `ValueError` subclass. -/
def Accuracy (y_true y_pred : Option Container) : Except PyErr ℚ :=
  match y_true, y_pred with
  | some t0, some p0 =>
    match toPayload t0, toPayload p0 with
    | some ta, some pa =>
      let t : NDArray := ⟨squeezeShape ta.shape, ta.data⟩
      let p : NDArray := ⟨squeezeShape pa.shape, pa.data⟩
      if p.data.any (fun q => !(isIntRat q)) then
        if p.shape.length = 1 then
          accuracyScore t ⟨p.shape, p.data.map (fun q => if oneHalf < q then 1 else 0)⟩
        else if p.shape.length = 0 then
          .error (.valueError "axis 1 is out of bounds for array of dimension 0")
        else accuracyScore t (argmaxAxis1 p)
      else accuracyScore t p
    | _, _ => .error (.typeError "int() argument must be a number, not an object array")
  | _, _ => .error (.typeError "int() argument must be a number, not NoneType")

/-- The result type every `Evaluator` table entry shares: real-valued
arrays (scalars are 0-D arrays). -/
abbrev MetricFn := Option Container → Option Container → String → Except PyErr NDArrayR

/-- Lift an exact-rational metric result into the real-valued result type. -/
noncomputable def liftQ (r : Except PyErr NDArray) : Except PyErr NDArrayR :=
  r.map (fun a => ⟨a.shape, a.data.map (fun (q : ℚ) => (q : ℝ))⟩)

namespace Evaluator

/-- `Evaluator.metrics_func` (metrics.py lines 330-346): the string-keyed
dispatch table.  `Accuracy` ignores the `multioutput` keyword `evaluate`
passes it and returns a bare scalar. -/
noncomputable def metrics_func : List (String × MetricFn) :=
  [("me", fun a b m => liftQ (ME a b m)),
   ("mae", fun a b m => liftQ (MAE a b m)),
   ("mse", fun a b m => liftQ (MSE a b m)),
   ("rmse", fun a b m => RMSE a b m),
   ("msle", fun a b m => MSLE a b m),
   ("r2", fun a b m => liftQ (R2 a b m)),
   ("mpe", fun a b m => liftQ (MPE a b m)),
   ("mape", fun a b m => liftQ (MAPE a b m)),
   ("mspe", fun a b m => liftQ (MSPE a b m)),
   ("smape", fun a b m => liftQ (sMAPE a b m)),
   ("mdape", fun a b m => liftQ (MDAPE a b m)),
   ("smdape", fun a b m => liftQ (sMDAPE a b m)),
   ("accuracy", fun a b _ => (Accuracy a b).map (fun (q : ℚ) => ⟨[], [(q : ℝ)]⟩))]

/-- The 13 supported metric names, in table order (the keys of
`metrics_func`; see `metricKeys_eq`). -/
def metricKeys : List String :=
  ["me", "mae", "mse", "rmse", "msle", "r2", "mpe", "mape", "mspe",
   "smape", "mdape", "smdape", "accuracy"]

/-- `Evaluator.max_mode_metrics` (metrics.py line 348). -/
def max_mode_metrics : List String := ["r2", "accuracy"]

/-- `Evaluator.check_metric` (metrics.py lines 355-360): `None` and the
empty string are falsy, hence "invalid metric name"; any other unsupported
name is "not supported".  Both paths raise `ValueError`. -/
def check_metric : Option String → Except PyErr String
  | none => .error (.valueError "Got invalid metric name of None!")
  | some s =>
    if s = "" then .error (.valueError "Got invalid metric name of !")
    else if metricKeys.contains s then .ok s
    else .error (.valueError ("metric " ++ s ++ " is not supported"))

/-- `Evaluator.evaluate` (metrics.py lines 350-353): validate the name,
then apply the table entry to `(y_true, y_pred, multioutput)`. -/
noncomputable def evaluate (metric : Option String) (y_true y_pred : Option Container)
    (multioutput : String) : Except PyErr NDArrayR :=
  match check_metric metric with
  | .error e => .error e
  | .ok name =>
    ((metrics_func.lookup name).getD (fun _ _ _ => .error (.valueError "unreachable")))
      y_true y_pred multioutput

/-- `Evaluator.get_metric_mode` (metrics.py lines 362-368). -/
def get_metric_mode (metric : Option String) : Except PyErr String :=
  match check_metric metric with
  | .error e => .error e
  | .ok name => if max_mode_metrics.contains name then .ok "max" else .ok "min"

end Evaluator

/-! ## The parquet dataset layer (`pyzoo/zoo/orca/data/image/parquet_dataset.py`) -/

/-- Feature kinds of a schema field (`FeatureType` from
`zoo/orca/data/image/utils.py`, used throughout parquet_dataset.py). -/
inductive FeatureType where
  | SCALAR | NDARRAY | IMAGE
  deriving DecidableEq

/-- Element dtypes (`DType` from utils.py), carried in the schema
descriptor. -/
inductive DTypeTag where
  | FLOAT32 | FLOAT64 | INT32 | INT64 | UINT8 | STRING
  deriving DecidableEq

/-- `SchemaField` (utils.py): feature kind, element dtype, shape. -/
structure SchemaField where
  feature_type : FeatureType
  dtype : DTypeTag
  shape : List Int
  deriving DecidableEq

/-- A schema: ordered field name/field pairs (a Python dict). -/
abbrev Schema := List (String × SchemaField)

/-- A value in a generator record: a numeric scalar, a string (a scalar or
an image file path), an ndarray, or raw bytes (the form image fields take in
records read back from disk). -/
inductive PyValue where
  | num (q : ℚ)
  | str (s : String)
  | arr (a : NDArray)
  | bytes (b : List Nat)
  deriving DecidableEq

/-- One record of the generator: ordered field name/value pairs. -/
abbrev Record := List (String × PyValue)

/-- One parquet cell: a scalar parquet value, a BYTE_ARRAY holding a
serialized ndarray (the serialization is modelled by the injective
constructor tag), a BYTE_ARRAY holding raw image file content, or null for
a nonconforming field. -/
inductive Cell where
  | scalarNum (q : ℚ)
  | scalarStr (s : String)
  | arrayBytes (a : NDArray)
  | rawBytes (b : List Nat)
  | nullCell
  deriving DecidableEq

/-- One parquet row, aligned with the schema's field order. -/
abbrev Row := List (String × Cell)

/-- A file system snapshot: path to raw byte content. -/
abbrev FileSystem := String → List Nat

/-- Modelled from the spec: `dict_to_row` lives in
`zoo/orca/data/image/utils.py`, which is not under src/.  Per the spec and
the `ParquetDataset.write` docstring, each field is encoded by its declared
feature kind: a Scalar value maps directly to a parquet value; an NDarray is
saved as its serialized bytes; an Image value is a file path whose raw file
content bytes are saved. -/
def dict_to_row (fs : FileSystem) (schema : Schema) (rec : Record) : Row :=
  schema.map (fun nf =>
    (nf.1,
      match nf.2.feature_type, rec.lookup nf.1 with
      | .SCALAR, some (.num q) => Cell.scalarNum q
      | .SCALAR, some (.str s) => Cell.scalarStr s
      | .NDARRAY, some (.arr a) => Cell.arrayBytes a
      | .IMAGE, some (.str path) => Cell.rawBytes (fs path)
      | _, _ => Cell.nullCell))

/-- Modelled from the spec: `row_to_dict` (utils.py, not under src/) decodes
one parquet row back into a record, driven by the schema's feature kinds:
scalar cells map back directly, NDARRAY bytes deserialize to the ndarray,
and IMAGE cells keep the raw file content bytes. -/
def row_to_dict (schema : Schema) (row : Row) : Record :=
  List.zipWith (fun (nf : String × SchemaField) (cell : String × Cell) =>
    (nf.1,
      match nf.2.feature_type, cell.2 with
      | .SCALAR, Cell.scalarNum q => PyValue.num q
      | .SCALAR, Cell.scalarStr s => PyValue.str s
      | .NDARRAY, Cell.arrayBytes a => PyValue.arr a
      | .IMAGE, Cell.rawBytes b => PyValue.bytes b
      | _, _ => PyValue.num 0)) schema row

/-- Modelled from the spec: `encode_schema` (utils.py, not under src/)
serializes the schema descriptor (field name → feature kind, element dtype,
shape) into the `_orca_metadata` sidecar, and `decode_schema` inverts it;
the encoded form is modelled by the descriptor itself so that the pair stays
an inverse by construction. -/
def encode_schema (schema : Schema) : Schema := schema

/-- Modelled from the spec: inverse of `encode_schema` (see there). -/
def decode_schema (j : Schema) : Schema := j

/-- Modelled from the spec: `chunks` (utils.py, not under src/) groups the
generator into consecutive blocks of `block_size` records ("Chunk: one
partition-sized subset of records"); the final block may be shorter.
Meaningful for `0 < b`, matching the positive `block_size` default 1000. -/
def chunksOf {α : Type} (b : Nat) : List α → List (List α)
  | [] => []
  | x :: xs => ((x :: xs).take b) :: chunksOf b (xs.drop (b - 1))
termination_by l => l.length
decreasing_by simp; omega

/-- The on-disk result of `ParquetDataset.write`: the `chunk=<i>` directories
with their parquet rows, and the `_orca_metadata` sidecar file. -/
structure WrittenDataset where
  chunkDirs : List (String × List Row)
  metadataFile : String × Schema
  deriving DecidableEq

namespace ParquetDataset

/-- `ParquetDataset.write` (parquet_dataset.py lines 38-79): enumerate the
blocks of `block_size` records, write block `i`'s rows (each record through
`dict_to_row`) under `<path>/chunk=<i>`, then write the encoded schema to
`<path>/_orca_metadata`. -/
def write (path : String) (generator : List Record) (schema : Schema)
    (block_size : Nat) (fs : FileSystem) : WrittenDataset :=
  ⟨(chunksOf block_size generator).enum.map
      (fun ic => (path ++ "/chunk=" ++ toString ic.1, ic.2.map (dict_to_row fs schema))),
   (path ++ "/_orca_metadata", encode_schema schema)⟩

/-- `ParquetDataset._read_as_dict_rdd` (parquet_dataset.py lines 81-94),
collected to a list: read every chunk's rows, decode the sidecar schema, and
map each row back to a record with `row_to_dict`. -/
def read_as_dict_list (w : WrittenDataset) : List Record :=
  ((w.chunkDirs.map Prod.snd).flatten).map (row_to_dict (decode_schema w.metadataFile.2))

end ParquetDataset

/-- One field's conformance of a record to the schema: the declared kind is
bound to a value of the matching form (scalar fields to numbers or strings,
ndarray fields to arrays, image fields to path strings). -/
def fieldOk (rec : Record) (nf : String × SchemaField) : Bool :=
  match nf.2.feature_type, rec.lookup nf.1 with
  | .SCALAR, some (.num _) => true
  | .SCALAR, some (.str _) => true
  | .NDARRAY, some (.arr _) => true
  | .IMAGE, some (.str _) => true
  | _, _ => false

/-- A record conforms to the schema when it binds exactly the schema's field
names in the schema's order and each field conforms. -/
def conformsB (schema : Schema) (rec : Record) : Bool :=
  schema.all (fieldOk rec) && (rec.map Prod.fst == schema.map Prod.fst)

/-- The record as the reader returns it: image path fields replaced by the
referenced file's raw bytes, everything else unchanged, in schema order. -/
def resolveRecord (fs : FileSystem) (schema : Schema) (rec : Record) : Record :=
  schema.map (fun nf =>
    (nf.1,
      match nf.2.feature_type, rec.lookup nf.1 with
      | .IMAGE, some (.str path) => PyValue.bytes (fs path)
      | _, some v => v
      | _, none => PyValue.num 0))

/-- `_check_arguments` (parquet_dataset.py lines 259-261): `assert keyword
in kwargs` for each required keyword — a missing keyword therefore surfaces
as an `AssertionError`, not a `ValueError`. -/
def check_arguments (fmt : String) (kwargs : List String) (args : List String) :
    Except PyErr Unit :=
  match args with
  | [] => .ok ()
  | k :: rest =>
    if k ∈ kwargs then check_arguments fmt kwargs rest
    else .error (.assertionError (k ++ " is not specified for format " ++ fmt ++ "."))

/-- The required keyword arguments per write format
(parquet_dataset.py lines 270-272). -/
def writeFormatArgs : List (String × List String) :=
  [("mnist", ["image_file", "label_file"]),
   ("image_folder", ["directory", "label_map"]),
   ("voc", ["voc_root_path", "splits_names"])]

/-- `write_parquet` validation and dispatch (parquet_dataset.py lines
264-275): an unsupported format raises `ValueError`; then the required
keywords of the chosen format are asserted present; on success the call
dispatches to the format's writer (returned here by name). -/
def write_parquet (format : String) (kwargs : List String) : Except PyErr String :=
  if format ∉ ["mnist", "image_folder", "voc"] then
    .error (.valueError (format ++ " is not supported, should be one of 'mnist','image_folder' and 'voc'."))
  else
    match check_arguments format kwargs ((writeFormatArgs.lookup format).getD []) with
    | .error e => .error e
    | .ok _ => .ok ("write_" ++ format)

/-- The required keyword arguments per read format
(parquet_dataset.py lines 405-406): `tf_dataset` requires `output_types`;
`dataloader` requires nothing. -/
def readFormatArgs : List (String × List String) :=
  [("tf_dataset", ["output_types"]), ("dataloader", [])]

/-- `read_parquet` validation and dispatch
(parquet_dataset.py lines 399-410). -/
def read_parquet (format : String) (kwargs : List String) : Except PyErr String :=
  if format ∉ ["tf_dataset", "dataloader"] then
    .error (.valueError (format ++ " is not supported, should be 'tf_dataset' or 'dataloader'."))
  else
    match check_arguments format kwargs ((readFormatArgs.lookup format).getD []) with
    | .error e => .error e
    | .ok _ => .ok ("read_as_" ++ format)

/-- Ascending string order (Python `list.sort` on the chunk paths). -/
def strLeB (a b : String) : Bool := !(decide (b < a))

/-- The state of a `ParquetIterableDataset` after `__init__`
(parquet_dataset.py lines 323-363). -/
structure DSState where
  datapiece : List Record
  cur : Nat
  cur_tail : Nat
  transforms : Option (Record → Record)

/-- `ParquetIterableDataset.__init__` (parquet_dataset.py lines 324-363):
sort the chunk paths; with both `num_shards` and `rank` set, assert
`num_shards <= #chunks` and `rank < num_shards`, then keep the chunks whose
sorted index is congruent to `rank` mod `num_shards`; with either absent,
keep all chunks; concatenate the kept chunks' records in sorted order.
`contents` gives the decoded records of each chunk path (the
`pq.read_table` / `decode_feature_type_ndarray` pipeline, an external
collaborator). -/
def datasetInit (contents : String → List Record) (row_group : List String)
    (num_shards rank : Option Nat) (transforms : Option (Record → Record)) :
    Except PyErr DSState :=
  let sorted := sortLe strLeB row_group
  let build : List Nat → DSState := fun idxs =>
    let dp := (idxs.map (fun i => contents (sorted.getD i ""))).flatten
    ⟨dp, 0, dp.length, transforms⟩
  match num_shards, rank with
  | some ns, some r =>
    if ¬ (ns ≤ sorted.length) then
      .error (.assertionError "num_shards should be not larger than partitions.")
    else if ¬ (r < ns) then
      .error (.assertionError "shard index should be included in [0,num_shard).")
    else .ok (build ((List.range sorted.length).filter (fun i => i % ns == r)))
  | _, _ => .ok (build (List.range sorted.length))

/-- Everything the iterator yields: `__next__` (parquet_dataset.py lines
368-378) returns `datapiece[cur]` (through `transforms` when set) and
advances `cur`, until `cur` reaches `cur_tail`. -/
def iterateAll (s : DSState) : List Record :=
  if h : s.cur < s.cur_tail then
    (match s.transforms with
     | some f => f (s.datapiece.getD s.cur [])
     | none => s.datapiece.getD s.cur []) ::
      iterateAll ⟨s.datapiece, s.cur + 1, s.cur_tail, s.transforms⟩
  else []
termination_by s.cur_tail - s.cur
decreasing_by simp; omega

/-- The standardized 2-D form of an array (what lines 53-61 produce). -/
def std2 (a : NDArray) : NDArray :=
  if a.shape.length = 1 then ⟨[a.shape.getD 0 0, 1], a.data⟩
  else ⟨[a.shape.getD 0 0, a.shape.tail.prod], a.data⟩
/-- Elementwise `np.sqrt` on a (possibly scalar) metric result. -/
noncomputable def sqrtElem (r : Except PyErr NDArrayR) : Except PyErr NDArrayR :=
  r.map (fun a => ⟨a.shape, a.data.map Real.sqrt⟩)
/-- The 12 metric names whose functions start with `_standardize_input`
(every table entry except `accuracy`). -/
def standardizingMetricNames : List String :=
  ["me", "mae", "mse", "rmse", "msle", "r2", "mpe", "mape", "mspe",
   "smape", "mdape", "smdape"]
/-- Kernel-reducible literal for `3/4`. -/
def threeQuarters : ℚ := ⟨3, 4, by decide, by norm_num [Nat.Coprime]⟩
/-- Kernel-reducible literal for `1/4`. -/
def oneQuarter : ℚ := ⟨1, 4, by decide, Nat.coprime_one_left 4⟩
/-- A rational metric result that is `ok` with a nonempty data list whose
entries all equal `c` (a scalar `c` or an all-`c` array). -/
def resAllValQ (r : Except PyErr NDArray) (c : ℚ) : Prop :=
  match r with
  | .ok a => a.data ≠ [] ∧ ∀ v ∈ a.data, v = c
  | .error _ => False
/-- A real metric result that is `ok` with a nonempty data list whose
entries all equal `c`. -/
def resAllVal (r : Except PyErr NDArrayR) (c : ℝ) : Prop :=
  match r with
  | .ok a => a.data ≠ [] ∧ ∀ v ∈ a.data, v = c
  | .error _ => False
/-- The claimed multioutput contract of a metric: `raw_values` returns a
per-output array shaped like the ground truth's original per-sample shape,
and `uniform_average` returns the scalar arithmetic mean of the
`raw_values` data. -/
def rawUniformContract (name : String) (y_true y_pred : Option Container)
    (orig : List Nat) : Prop :=
  (Evaluator.evaluate (some name) y_true y_pred "raw_values").map NDArrayR.shape =
    .ok orig ∧
  Evaluator.evaluate (some name) y_true y_pred "uniform_average" =
    (Evaluator.evaluate (some name) y_true y_pred "raw_values").map
      (fun r => ⟨[], [meanR r.data]⟩)

/-! ## General-purpose lemmas -/

theorem Evaluator.metricKeys_eq :
    Evaluator.metrics_func.map Prod.fst = Evaluator.metricKeys := rfl


theorem mean_all_zero {l : List ℚ} (h : ∀ v ∈ l, v = 0) : mean l = 0 := by
  simp [mean, List.sum_eq_zero h]

theorem mean_all_eq {l : List ℚ} {c : ℚ} (hne : l ≠ []) (h : ∀ v ∈ l, v = c) :
    mean l = c := by
  have hs : l.sum = l.length • c := List.sum_eq_card_nsmul l c h
  have hn : (l.length : ℚ) ≠ 0 := by
    simpa using List.length_pos.2 hne |>.ne'
  rw [mean, hs, nsmul_eq_mul]
  exact mul_div_cancel_left₀ c hn

theorem meanR_all_zero {l : List ℝ} (h : ∀ v ∈ l, v = 0) : meanR l = 0 := by
  simp [meanR, List.sum_eq_zero h]

theorem list_sum_cast (l : List ℚ) :
    (l.map (fun (q : ℚ) => (q : ℝ))).sum = ((l.sum : ℚ) : ℝ) := by
  induction l with
  | nil => simp
  | cons x xs ih =>
    rw [List.map_cons, List.sum_cons, List.sum_cons, ih]
    push_cast
    ring

theorem meanR_cast (l : List ℚ) :
    meanR (l.map (fun (q : ℚ) => (q : ℝ))) = ((mean l : ℚ) : ℝ) := by
  unfold meanR mean
  rw [list_sum_cast, List.length_map]
  push_cast
  ring

theorem insertLe_mem {α : Type} (le : α → α → Bool) (x : α) (l : List α) (y : α) :
    y ∈ insertLe le x l ↔ y = x ∨ y ∈ l := by
  induction l with
  | nil => simp [insertLe]
  | cons z zs ih =>
    by_cases h : le x z
    · simp [insertLe, h]
    · simp [insertLe, h, ih]
      tauto

theorem sortLe_mem {α : Type} (le : α → α → Bool) (l : List α) (y : α) :
    y ∈ sortLe le l ↔ y ∈ l := by
  induction l with
  | nil => simp [sortLe]
  | cons z zs ih => simp [sortLe, insertLe_mem, ih]

theorem getD_all_zero {l : List ℚ} (h : ∀ v ∈ l, v = 0) (i : Nat) : l.getD i 0 = 0 := by
  rw [List.getD_eq_getElem?_getD]
  cases hl : l[i]? with
  | none => simp
  | some v =>
    have hv : v ∈ l := List.getElem?_mem hl
    simp [h v hv]

theorem median_all_zero {l : List ℚ} (h : ∀ v ∈ l, v = 0) : median l = 0 := by
  have hsorted : ∀ v ∈ sortLe (fun a b => decide (a ≤ b)) l, v = 0 := by
    intro v hv
    exact h v ((sortLe_mem _ l v).1 hv)
  unfold median
  simp only []
  split
  · exact getD_all_zero hsorted _
  · rw [getD_all_zero hsorted _, getD_all_zero hsorted _]
    norm_num

theorem sortLe_length {α : Type} (le : α → α → Bool) (l : List α) :
    (sortLe le l).length = l.length := by
  induction l with
  | nil => rfl
  | cons x xs ih =>
    have hins : ∀ (m : List α), (insertLe le x m).length = m.length + 1 := by
      intro m
      induction m with
      | nil => rfl
      | cons y ys ihm =>
        by_cases h : le x y
        · simp [insertLe, h]
        · simp [insertLe, h, ihm]
    simp [sortLe, hins, ih]

theorem zipWith_self_map {α β : Type} (f : α → α → β) (l : List α) :
    List.zipWith f l l = l.map (fun x => f x x) := by
  induction l with
  | nil => rfl
  | cons x xs ih => simp [ih]

/-! ## Lemmas about `_standardize_input` -/

theorem reshape2d_ndarray (a : NDArray) (h : a.shape ≠ []) :
    reshape2d (.ndarray a) = .ok (std2 a) := by
  by_cases h1 : a.shape.length = 1
  · simp [reshape2d, std2, h1]
  · have h0 : a.shape.length ≠ 0 := by
      simpa [List.length_eq_zero] using h
    simp [reshape2d, std2, h1, h0]

theorem standardizeCore_ndarray (a b : NDArray) (ha : a.shape ≠ []) (hb : b.shape ≠ [])
    (hn : (std2 a).shape.getD 0 0 = (std2 b).shape.getD 0 0)
    (hd : (std2 a).shape.getD 1 0 = (std2 b).shape.getD 1 0) :
    standardizeCore (some (.ndarray a)) (some (.ndarray b)) =
      .ok (std2 a, std2 b, a.shape.tail) := by
  simp only [List.getD_eq_getElem?_getD] at hn hd
  simp [standardizeCore, isSupportedContainer, seqToArray, dfPair, astypeFloat,
        containerShape, reshape2d_ndarray _ ha, reshape2d_ndarray _ hb, hn, hd]

theorem standardizeCore_ndarray_mismatch (a b : NDArray) (ha : a.shape ≠ []) (hb : b.shape ≠ [])
    (hmis : (std2 a).shape.getD 0 0 ≠ (std2 b).shape.getD 0 0 ∨
            (std2 a).shape.getD 1 0 ≠ (std2 b).shape.getD 1 0) :
    isValueErrorB (standardizeCore (some (.ndarray a)) (some (.ndarray b))) = true := by
  simp only [standardizeCore, isSupportedContainer, seqToArray, dfPair, astypeFloat,
             containerShape, reshape2d_ndarray _ ha, reshape2d_ndarray _ hb]
  simp only [List.getD_eq_getElem?_getD] at hmis
  by_cases hn : (std2 a).shape[0]?.getD 0 = (std2 b).shape[0]?.getD 0
  · rcases hmis with h | h
    · exact absurd hn h
    · simp [hn, h, isValueErrorB]
  · simp [hn, isValueErrorB]

theorem standardize_input_of_core_ok {yt yp : Option Container}
    {x : NDArray × NDArray × List Nat} (h : standardizeCore yt yp = .ok x)
    {m : String} (hm : allowedMultioutput.contains m = true) :
    standardize_input yt yp m = .ok x := by
  have hm2 : m ∈ allowedMultioutput := by simpa using hm
  simp [standardize_input, h, hm2]

theorem standardize_input_ok_core {yt yp : Option Container} {m : String}
    {x : NDArray × NDArray × List Nat} (h : standardize_input yt yp m = .ok x) :
    standardizeCore yt yp = .ok x := by
  unfold standardize_input at h
  split at h
  · exact absurd h (by simp)
  · rename_i y heq
    rw [heq]
    split at h
    · exact h
    · exact absurd h (by simp)

theorem standardize_input_mode_switch {yt yp : Option Container} {m m2 : String}
    {x : NDArray × NDArray × List Nat} (h : standardize_input yt yp m = .ok x)
    (hm2 : allowedMultioutput.contains m2 = true) :
    standardize_input yt yp m2 = .ok x :=
  standardize_input_of_core_ok (standardize_input_ok_core h) hm2

theorem standardize_input_error_of_core {yt yp : Option Container} {m : String}
    {e : PyErr} (h : standardizeCore yt yp = .error e) :
    standardize_input yt yp m = .error e := by
  simp [standardize_input, h]

/-! ## Claim C3: missing required kwargs for read/write formats -/

theorem check_arguments_missing {fmt : String} {kwargs args : List String}
    (h : ∃ k ∈ args, k ∉ kwargs) :
    isAssertionErrorB (check_arguments fmt kwargs args) = true := by
  induction args with
  | nil => rcases h with ⟨k, hk, _⟩; exact absurd hk (by simp)
  | cons a rest ih =>
    rcases h with ⟨k, hk, hmiss⟩
    by_cases hc : a ∈ kwargs
    · rcases List.mem_cons.1 hk with rfl | hk2
      · exact absurd hc hmiss
      · rw [check_arguments, if_pos hc]
        exact ih ⟨k, hk2, hmiss⟩
    · rw [check_arguments, if_neg hc]
      rfl

/-- Claim C3 (counterexample): calling `write_parquet("mnist", output_path)`
without the required `image_file` keyword does NOT fail with a `ValueError`:
`_check_arguments` uses a bare `assert`, so the call fails with an
`AssertionError`. -/
theorem claimC3_counterexample :
    write_parquet "mnist" [] =
      .error (.assertionError "image_file is not specified for format mnist.") ∧
    isValueErrorB (write_parquet "mnist" []) = false := by
  constructor <;> rfl

/-- Claim C3 (amended): for every write format (`mnist`, `image_folder`,
`voc`) and read format (`tf_dataset`, `dataloader`), calling `write_parquet`
or `read_parquet` without a required keyword argument of that format fails
immediately — but with an `AssertionError` from `_check_arguments`'s
`assert`, not a `ValueError` (a `ValueError` is raised only for an
unsupported format string). -/
theorem claimC3_amended (fmt : String) (kwargs : List String) :
    (fmt ∈ ["mnist", "image_folder", "voc"] →
      (∃ k ∈ (writeFormatArgs.lookup fmt).getD [], k ∉ kwargs) →
      isAssertionErrorB (write_parquet fmt kwargs) = true) ∧
    (fmt ∈ ["tf_dataset", "dataloader"] →
      (∃ k ∈ (readFormatArgs.lookup fmt).getD [], k ∉ kwargs) →
      isAssertionErrorB (read_parquet fmt kwargs) = true) := by
  constructor
  · intro hfmt hmiss
    unfold write_parquet
    rw [if_neg (not_not_intro hfmt)]
    cases hargs : check_arguments fmt kwargs ((writeFormatArgs.lookup fmt).getD []) with
    | error e =>
      have hmz := @check_arguments_missing fmt _ _ hmiss
      rw [hargs] at hmz
      cases e <;> simp_all [isAssertionErrorB]
    | ok u =>
      have hmz := @check_arguments_missing fmt _ _ hmiss
      rw [hargs] at hmz
      simp [isAssertionErrorB] at hmz
  · intro hfmt hmiss
    unfold read_parquet
    rw [if_neg (not_not_intro hfmt)]
    cases hargs : check_arguments fmt kwargs ((readFormatArgs.lookup fmt).getD []) with
    | error e =>
      have hmz := @check_arguments_missing fmt _ _ hmiss
      rw [hargs] at hmz
      cases e <;> simp_all [isAssertionErrorB]
    | ok u =>
      have hmz := @check_arguments_missing fmt _ _ hmiss
      rw [hargs] at hmz
      simp [isAssertionErrorB] at hmz

theorem claimC3_amended_witness :
    isAssertionErrorB (write_parquet "mnist" []) = true :=
  (claimC3_amended "mnist" []).1 (by decide) ⟨"image_file", by decide, by decide⟩

/-! ## Claim C10: the Evaluator dispatch table -/

/-- Claim C10 (confirmed): `Evaluator.evaluate` raises a `ValueError` for a
`None` metric name, for the empty string, and for every name outside the 13
supported keys; for each supported name it returns exactly the result of the
corresponding metric function applied to `(y_true, y_pred, multioutput)`;
and `Evaluator.get_metric_mode` returns `"max"` exactly for `r2` and
`accuracy` and `"min"` for every other supported metric. -/
theorem check_metric_not_mem {s : String} (he : s ≠ "")
    (hs : s ∉ Evaluator.metricKeys) :
    Evaluator.check_metric (some s) =
      .error (.valueError ("metric " ++ s ++ " is not supported")) := by
  simp only [Evaluator.check_metric]
  rw [if_neg he, if_neg (by simpa using hs)]

theorem check_metric_mem {s : String} (he : s ≠ "")
    (hs : s ∈ Evaluator.metricKeys) :
    Evaluator.check_metric (some s) = .ok s := by
  simp only [Evaluator.check_metric]
  rw [if_neg he, if_pos (by simpa using hs)]

theorem claimC10 :
    (∀ yt yp m, Evaluator.evaluate none yt yp m =
        .error (.valueError "Got invalid metric name of None!")) ∧
    (∀ yt yp m, Evaluator.evaluate (some "") yt yp m =
        .error (.valueError "Got invalid metric name of !")) ∧
    (∀ s, s ∉ Evaluator.metricKeys →
      ∀ yt yp m, isValueErrorB (Evaluator.evaluate (some s) yt yp m) = true) ∧
    (∀ yt yp m,
      Evaluator.evaluate (some "me") yt yp m = liftQ (ME yt yp m) ∧
      Evaluator.evaluate (some "mae") yt yp m = liftQ (MAE yt yp m) ∧
      Evaluator.evaluate (some "mse") yt yp m = liftQ (MSE yt yp m) ∧
      Evaluator.evaluate (some "rmse") yt yp m = RMSE yt yp m ∧
      Evaluator.evaluate (some "msle") yt yp m = MSLE yt yp m ∧
      Evaluator.evaluate (some "r2") yt yp m = liftQ (R2 yt yp m) ∧
      Evaluator.evaluate (some "mpe") yt yp m = liftQ (MPE yt yp m) ∧
      Evaluator.evaluate (some "mape") yt yp m = liftQ (MAPE yt yp m) ∧
      Evaluator.evaluate (some "mspe") yt yp m = liftQ (MSPE yt yp m) ∧
      Evaluator.evaluate (some "smape") yt yp m = liftQ (sMAPE yt yp m) ∧
      Evaluator.evaluate (some "mdape") yt yp m = liftQ (MDAPE yt yp m) ∧
      Evaluator.evaluate (some "smdape") yt yp m = liftQ (sMDAPE yt yp m) ∧
      Evaluator.evaluate (some "accuracy") yt yp m =
        (Accuracy yt yp).map (fun (q : ℚ) => ⟨[], [(q : ℝ)]⟩)) ∧
    (Evaluator.get_metric_mode (some "r2") = .ok "max" ∧
     Evaluator.get_metric_mode (some "accuracy") = .ok "max") ∧
    (∀ s, s ∈ Evaluator.metricKeys → s ∉ Evaluator.max_mode_metrics →
      Evaluator.get_metric_mode (some s) = .ok "min") := by
  refine ⟨fun yt yp m => rfl, fun yt yp m => rfl, ?_, ?_, ⟨rfl, rfl⟩, ?_⟩
  · intro s hs yt yp m
    by_cases he : s = ""
    · subst he
      simp [Evaluator.evaluate, Evaluator.check_metric, isValueErrorB]
    · unfold Evaluator.evaluate
      rw [check_metric_not_mem he hs]
      rfl
  · intro yt yp m
    refine ⟨rfl, rfl, rfl, rfl, rfl, rfl, rfl, rfl, rfl, rfl, rfl, rfl, rfl⟩
  · intro s hs hmax
    have he : s ≠ "" := by
      intro h
      subst h
      exact absurd hs (by decide)
    unfold Evaluator.get_metric_mode
    rw [check_metric_mem he hs]
    simp [hmax]

theorem claimC10_witness :
    isValueErrorB (Evaluator.evaluate (some "mean_error") none none "raw_values") = true ∧
    Evaluator.get_metric_mode (some "mse") = .ok "min" :=
  ⟨claimC10.2.2.1 "mean_error" (by decide) none none "raw_values",
   claimC10.2.2.2.2.2 "mse" (by decide) (by decide)⟩

/-! ## Claim C1: RMSE versus the square root of MSE -/

/-- Claim C1 (amended): `RMSE(a, b, m)` is the elementwise square root of
`MSE(a, b, m)` for the SAME multioutput argument `m` — the source passes its
own `multioutput` through to `MSE`.  With each function's own defaults the
identity fails, because `RMSE` defaults to `'raw_values'` while `MSE`
defaults to `'uniform_average'` (see `claimC1_counterexample`). -/
theorem claimC1_amended (yt yp : Option Container) (m : String) :
    RMSE yt yp m = sqrtElem (liftQ (MSE yt yp m)) := by
  unfold RMSE sqrtElem liftQ
  cases MSE yt yp m with
  | error e => rfl
  | ok a => simp [Except.map, List.map_map, Function.comp]

/-- Claim C1 (counterexample): with both functions at their own defaults
(`RMSE` at `'raw_values'`, `MSE` at `'uniform_average'`) and the two-output
input `y_true = [[0, 0]]`, `y_pred = [[1, 3]]`, `RMSE` returns the
per-output array `[1, 3]` (shape `(2,)`) while the square root of the
default `MSE` is the scalar `sqrt 5` (shape `()`); the claimed identity
fails already on shapes. -/
theorem claimC1_counterexample :
    RMSE (some (.ndarray ⟨[1, 2], [0, 0]⟩)) (some (.ndarray ⟨[1, 2], [1, 3]⟩)) "raw_values" ≠
      sqrtElem (liftQ (MSE (some (.ndarray ⟨[1, 2], [0, 0]⟩))
        (some (.ndarray ⟨[1, 2], [1, 3]⟩)) "uniform_average")) := by
  intro h
  have h2 := congrArg (Except.map NDArrayR.shape) h
  have h3 : (Except.ok [2] : Except PyErr (List Nat)) = Except.ok [] := h2
  simp at h3

/-! ## Claim C4: None / unsupported-container validation -/

theorem standardize_input_none_left (yp : Option Container) (m : String) :
    standardize_input none yp m = .error (.valueError "The input is None.") := by
  cases yp <;> rfl

theorem standardize_input_none_right (t0 : Container) (m : String) :
    standardize_input (some t0) none m = .error (.valueError "The input is None.") := rfl

theorem standardize_input_other_left (ty : String) (p0 : Container) (m : String) :
    standardize_input (some (.other ty)) (some p0) m =
      .error (.valueError "Expected array-like input.Only list/tuple/ndarray/pd.DataFrame are supported") := rfl

theorem standardize_input_other_right (c : Container) (a : NDArray) (ty : String) (m : String)
    (hc : c = .pyList a ∨ c = .pyTuple a ∨ c = .ndarray a ∨ c = .dataFrame a) :
    standardize_input (some c) (some (.other ty)) m =
      .error (.attributeError (ty ++ " object has no attribute astype")) := by
  rcases hc with rfl | rfl | rfl | rfl <;> rfl

/-- Each of the 12 standardizing metrics forwards a `_standardize_input`
error unchanged. -/
theorem metric_std_error {name : String} (hname : name ∈ standardizingMetricNames)
    {yt yp : Option Container} {m : String} {e : PyErr}
    (hstd : standardize_input yt yp m = .error e) :
    Evaluator.evaluate (some name) yt yp m = .error e := by
  fin_cases hname
  · show liftQ (ME yt yp m) = .error e
    simp [ME, handwrittenMetric, hstd, liftQ, Except.map]
  · show liftQ (MAE yt yp m) = .error e
    simp [MAE, sklearnRegMetric, hstd, liftQ, Except.map]
  · show liftQ (MSE yt yp m) = .error e
    simp [MSE, sklearnRegMetric, hstd, liftQ, Except.map]
  · show RMSE yt yp m = .error e
    simp [RMSE, MSE, sklearnRegMetric, hstd, Except.map]
  · show MSLE yt yp m = .error e
    simp [MSLE, hstd]
  · show liftQ (R2 yt yp m) = .error e
    simp [R2, hstd, liftQ, Except.map]
  · show liftQ (MPE yt yp m) = .error e
    simp [MPE, handwrittenMetric, hstd, liftQ, Except.map]
  · show liftQ (MAPE yt yp m) = .error e
    simp [MAPE, handwrittenMetric, hstd, liftQ, Except.map]
  · show liftQ (MSPE yt yp m) = .error e
    simp [MSPE, handwrittenMetric, hstd, liftQ, Except.map]
  · show liftQ (sMAPE yt yp m) = .error e
    simp [sMAPE, handwrittenMetric, hstd, liftQ, Except.map]
  · show liftQ (MDAPE yt yp m) = .error e
    simp [MDAPE, handwrittenMetric, hstd, liftQ, Except.map]
  · show liftQ (sMDAPE yt yp m) = .error e
    simp [sMDAPE, handwrittenMetric, hstd, liftQ, Except.map]

/-- Claim C4 (counterexample): the `isinstance` check of
`_standardize_input` inspects only `y_true`, so an unsupported `y_pred`
container (here a dict) slips past it and fails later at
`y_pred.astype(np.float64)` with an `AttributeError`, not a `ValueError`;
and `accuracy` does not call `_standardize_input` at all, so `None` inputs
reach `np.squeeze(...).astype(int)` and raise `TypeError`, not
`ValueError`. -/
theorem claimC4_counterexample :
    Evaluator.evaluate (some "me") (some (.pyList ⟨[1], [1]⟩)) (some (.other "dict"))
        "raw_values" = .error (.attributeError "dict object has no attribute astype") ∧
    isValueErrorB (Evaluator.evaluate (some "me") (some (.pyList ⟨[1], [1]⟩))
        (some (.other "dict")) "raw_values") = false ∧
    Evaluator.evaluate (some "accuracy") none none "raw_values" =
      .error (.typeError "int() argument must be a number, not NoneType") ∧
    isValueErrorB (Evaluator.evaluate (some "accuracy") none none "raw_values") = false :=
  ⟨rfl, rfl, rfl, rfl⟩

/-- Claim C4 (amended): for each of the 12 metric functions that call
`_standardize_input` (every table metric except `accuracy`): a `None` input
(either side) raises `ValueError`, and an unsupported `y_true` container
raises `ValueError` — but an unsupported `y_pred` container paired with a
supported `y_true` raises `AttributeError` (the `isinstance` check covers
only `y_true`).  `accuracy` bypasses `_standardize_input` and raises
`TypeError` on `None` inputs. -/
theorem claimC4_amended :
    (∀ name ∈ standardizingMetricNames, ∀ (yt yp : Option Container) (m : String),
      (yt = none ∨ yp = none) →
      Evaluator.evaluate (some name) yt yp m = .error (.valueError "The input is None.")) ∧
    (∀ name ∈ standardizingMetricNames, ∀ (ty : String) (p0 : Container) (m : String),
      Evaluator.evaluate (some name) (some (.other ty)) (some p0) m =
        .error (.valueError "Expected array-like input.Only list/tuple/ndarray/pd.DataFrame are supported")) ∧
    (∀ name ∈ standardizingMetricNames, ∀ (c : Container) (a : NDArray) (ty : String) (m : String),
      (c = .pyList a ∨ c = .pyTuple a ∨ c = .ndarray a ∨ c = .dataFrame a) →
      Evaluator.evaluate (some name) (some c) (some (.other ty)) m =
        .error (.attributeError (ty ++ " object has no attribute astype"))) ∧
    (∀ (yt yp : Option Container) (m : String), (yt = none ∨ yp = none) →
      Evaluator.evaluate (some "accuracy") yt yp m =
        .error (.typeError "int() argument must be a number, not NoneType")) := by
  refine ⟨?_, ?_, ?_, ?_⟩
  · intro name hname yt yp m hnone
    rcases hnone with rfl | rfl
    · exact metric_std_error hname (standardize_input_none_left yp m)
    · cases yt with
      | none => exact metric_std_error hname (standardize_input_none_left none m)
      | some t0 => exact metric_std_error hname (standardize_input_none_right t0 m)
  · intro name hname ty p0 m
    exact metric_std_error hname (standardize_input_other_left ty p0 m)
  · intro name hname c a ty m hc
    exact metric_std_error hname (standardize_input_other_right c a ty m hc)
  · intro yt yp m hnone
    show (Accuracy yt yp).map (fun (q : ℚ) => (⟨[], [(q : ℝ)]⟩ : NDArrayR)) = _
    rcases hnone with rfl | rfl
    · rfl
    · cases yt with
      | none => rfl
      | some t0 => rfl

theorem claimC4_amended_witness :
    Evaluator.evaluate (some "mse") none (some (.ndarray ⟨[1], [1]⟩)) "uniform_average" =
      .error (.valueError "The input is None.") :=
  claimC4_amended.1 "mse" (by decide) none (some (.ndarray ⟨[1], [1]⟩)) "uniform_average"
    (Or.inl rfl)

/-! ## Claim C5: mismatched sample/output dimensions -/

theorem isValueError_exists {α : Type} {r : Except PyErr α}
    (h : isValueErrorB r = true) : ∃ msg, r = .error (.valueError msg) := by
  cases r with
  | ok a => exact absurd h (by simp [isValueErrorB])
  | error e =>
    cases e with
    | valueError msg => exact ⟨msg, rfl⟩
    | attributeError msg => exact absurd h (by simp [isValueErrorB])
    | typeError msg => exact absurd h (by simp [isValueErrorB])
    | assertionError msg => exact absurd h (by simp [isValueErrorB])
    | indexError msg => exact absurd h (by simp [isValueErrorB])

theorem standardizeCore_normalize (c1 c2 : Container) (a b : NDArray)
    (h : ((c1 = .pyList a ∨ c1 = .pyTuple a ∨ c1 = .ndarray a) ∧
          (c2 = .pyList b ∨ c2 = .pyTuple b ∨ c2 = .ndarray b)) ∨
         (c1 = .dataFrame a ∧ c2 = .dataFrame b)) :
    standardizeCore (some c1) (some c2) =
      standardizeCore (some (.ndarray a)) (some (.ndarray b)) := by
  rcases h with ⟨h1, h2⟩ | ⟨rfl, rfl⟩
  · rcases h1 with rfl | rfl | rfl <;> rcases h2 with rfl | rfl | rfl <;> rfl
  · rfl

/-- Claim C5 (amended): for each of the 12 metric functions that call
`_standardize_input` (all except `accuracy`), inputs that are lists, tuples
or ndarrays (or both DataFrames) whose standardized 2-D forms disagree in
sample count or output count raise a `ValueError`.  The claim's full
generality fails on two points established by `claimC5_counterexample`:
a DataFrame paired with a non-DataFrame dies earlier with an
`AttributeError` (pandas removed `DataFrame.reshape`), and `accuracy` never
standardizes — its `argmax` collapse can even make mismatched shapes agree
and return a score. -/
theorem claimC5_amended (name : String) (hname : name ∈ standardizingMetricNames)
    (c1 c2 : Container) (a b : NDArray)
    (hcont : ((c1 = .pyList a ∨ c1 = .pyTuple a ∨ c1 = .ndarray a) ∧
              (c2 = .pyList b ∨ c2 = .pyTuple b ∨ c2 = .ndarray b)) ∨
             (c1 = .dataFrame a ∧ c2 = .dataFrame b))
    (ha : a.shape ≠ []) (hb : b.shape ≠ [])
    (hmis : (std2 a).shape.getD 0 0 ≠ (std2 b).shape.getD 0 0 ∨
            (std2 a).shape.getD 1 0 ≠ (std2 b).shape.getD 1 0)
    (m : String) :
    isValueErrorB (Evaluator.evaluate (some name) (some c1) (some c2) m) = true := by
  have hcore : isValueErrorB (standardizeCore (some c1) (some c2)) = true := by
    rw [standardizeCore_normalize c1 c2 a b hcont]
    exact standardizeCore_ndarray_mismatch a b ha hb hmis
  obtain ⟨msg, hmsg⟩ := isValueError_exists hcore
  rw [metric_std_error hname (standardize_input_error_of_core hmsg)]
  rfl

theorem claimC5_amended_witness :
    isValueErrorB (Evaluator.evaluate (some "mse") (some (.ndarray ⟨[1, 2], [1, 2]⟩))
      (some (.ndarray ⟨[1, 1], [1]⟩)) "raw_values") = true :=
  claimC5_amended "mse" (by decide) _ _ ⟨[1, 2], [1, 2]⟩ ⟨[1, 1], [1]⟩
    (Or.inl ⟨Or.inr (Or.inr rfl), Or.inr (Or.inr rfl)⟩)
    (by decide) (by decide) (by decide) "raw_values"

/-- Claim C5 (counterexample): two failures of the claim as stated.
(1) A 1×2 DataFrame `y_true` with a 1×1 list `y_pred` disagrees in output
count, but the call dies at `y_true.reshape` with an `AttributeError`
(`to_numpy` fires only when BOTH inputs are DataFrames, and pandas
DataFrames have no `reshape`), not a `ValueError`.
(2) `accuracy` with 1-D `y_true = [0,1]` and a 2×2 probability `y_pred`
(standardized forms would disagree in output count, 1 vs 2) raises nothing
at all: `np.argmax(axis=1)` collapses `y_pred` to 1-D and a score is
returned. -/
theorem claimC5_counterexample :
    (Evaluator.evaluate (some "me") (some (.dataFrame ⟨[1, 2], [5, 6]⟩))
        (some (.pyList ⟨[1, 1], [7]⟩)) "raw_values" =
      .error (.attributeError "DataFrame object has no attribute reshape") ∧
     isValueErrorB (Evaluator.evaluate (some "me") (some (.dataFrame ⟨[1, 2], [5, 6]⟩))
        (some (.pyList ⟨[1, 1], [7]⟩)) "raw_values") = false) ∧
    ((std2 ⟨[2], [0, 1]⟩).shape.getD 1 0 ≠
       (std2 ⟨[2, 2], [threeQuarters, oneQuarter, oneQuarter, threeQuarters]⟩).shape.getD 1 0 ∧
     ∃ v, Accuracy (some (.ndarray ⟨[2], [0, 1]⟩))
        (some (.ndarray ⟨[2, 2], [threeQuarters, oneQuarter, oneQuarter, threeQuarters]⟩)) =
          .ok v) :=
  ⟨⟨rfl, rfl⟩, by decide, ⟨_, rfl⟩⟩

/-! ## Claim C2: metrics at identical inputs -/

theorem resAllVal_liftQ {r : Except PyErr NDArray} {c : ℚ} (h : resAllValQ r c) :
    resAllVal (liftQ r) (c : ℝ) := by
  cases r with
  | error e => exact h
  | ok a =>
    obtain ⟨hne, hall⟩ := h
    refine ⟨by simpa using hne, ?_⟩
    intro v hv
    rw [List.mem_map] at hv
    obtain ⟨w, hw, rfl⟩ := hv
    rw [hall w hw]

theorem perColumn_self_zero (t : NDArray) (cell : ℚ → ℚ → ℚ) (agg : List ℚ → ℚ)
    (hcell : ∀ v, cell v v = 0) (hagg : ∀ l, (∀ v ∈ l, v = 0) → agg l = 0) :
    ∀ e ∈ perColumn t t cell agg, e = 0 := by
  intro e he
  unfold perColumn at he
  rw [List.mem_map] at he
  obtain ⟨j, hj, rfl⟩ := he
  apply hagg
  intro v hv
  rw [zipWith_self_map, List.mem_map] at hv
  obtain ⟨w, hw, rfl⟩ := hv
  exact hcell w

theorem perColumn_length (t p : NDArray) (cell : ℚ → ℚ → ℚ) (agg : List ℚ → ℚ) :
    (perColumn t p cell agg).length = t.shape.getD 1 0 := by
  simp [perColumn]

theorem std2_pos {x : NDArray} (hx : x.shape ≠ []) (hprod : 0 < x.shape.prod) :
    0 < (std2 x).shape.getD 0 0 ∧ 0 < (std2 x).shape.getD 1 0 := by
  cases hs : x.shape with
  | nil => exact absurd hs hx
  | cons h t =>
    rw [hs, List.prod_cons] at hprod
    have hh : 0 < h := by
      rcases Nat.eq_zero_or_pos h with rfl | hpos
      · simp at hprod
      · exact hpos
    have ht : 0 < t.prod := by
      rcases Nat.eq_zero_or_pos t.prod with h0 | hpos
      · rw [h0, Nat.mul_zero] at hprod; exact absurd hprod (by simp)
      · exact hpos
    unfold std2
    rw [hs]
    by_cases h1 : t = []
    · simp [h1, hh]
    · simp [h1, hh, ht]

theorem std2_data (x : NDArray) : (std2 x).data = x.data := by
  unfold std2
  split <;> rfl

theorem standardize_self (x : NDArray) (m : String) (hx : x.shape ≠ [])
    (hm : allowedMultioutput.contains m = true) :
    standardize_input (some (.ndarray x)) (some (.ndarray x)) m =
      .ok (std2 x, std2 x, x.shape.tail) :=
  standardize_input_of_core_ok (standardizeCore_ndarray x x hx hx rfl rfl) hm

theorem raw_or_uniform_allowed {m : String}
    (hm : m = "raw_values" ∨ m = "uniform_average") :
    allowedMultioutput.contains m = true := by
  rcases hm with rfl | rfl <;> decide

/-- At identical inputs each hand-written metric is `ok` and all-zero. -/
theorem handwritten_self_zero (cell : ℚ → ℚ → ℚ) (agg : List ℚ → ℚ)
    (hcell : ∀ v, cell v v = 0) (hagg : ∀ l, (∀ v ∈ l, v = 0) → agg l = 0)
    (x : NDArray) (m : String) (hx : x.shape ≠ [])
    (hd : 0 < (std2 x).shape.getD 1 0)
    (hm : m = "raw_values" ∨ m = "uniform_average") :
    resAllValQ (handwrittenMetric cell agg (some (.ndarray x)) (some (.ndarray x)) m) 0 := by
  have hstd := standardize_self x m hx (raw_or_uniform_allowed hm)
  have hz := perColumn_self_zero (std2 x) cell agg hcell hagg
  have hlen : (perColumn (std2 x) (std2 x) cell agg).length = (std2 x).shape.getD 1 0 :=
    perColumn_length _ _ _ _
  have hne : perColumn (std2 x) (std2 x) cell agg ≠ [] := by
    intro hnil
    rw [hnil] at hlen
    simp only [List.length_nil] at hlen
    omega
  simp only [handwrittenMetric, hstd, finalizeErrors]
  rcases hm with rfl | rfl
  · rw [if_pos rfl]
    exact ⟨hne, hz⟩
  · rw [if_neg (by decide)]
    exact ⟨by simp, fun v hv => by
      rw [List.mem_singleton] at hv
      rw [hv, mean_all_zero hz]⟩

theorem mem_zipWith_decomp {α β γ : Type} {f : α → β → γ} {l1 : List α} {l2 : List β}
    {x : γ} (h : x ∈ List.zipWith f l1 l2) : ∃ a ∈ l1, ∃ b ∈ l2, x = f a b := by
  induction l1 generalizing l2 with
  | nil => simp at h
  | cons a as ih =>
    cases l2 with
    | nil => simp at h
    | cons b bs =>
      rw [List.zipWith_cons_cons, List.mem_cons] at h
      rcases h with rfl | h
      · exact ⟨a, by simp, b, by simp, rfl⟩
      · obtain ⟨a2, ha2, b2, hb2, rfl⟩ := ih h
        exact ⟨a2, by simp [ha2], b2, by simp [hb2], rfl⟩

/-- At identical inputs each sklearn-kernel metric (`mse`, `mae`) is `ok`
and all-zero. -/
theorem sklearnReg_self_zero (cell : ℚ → ℚ → ℚ) (hcell : ∀ v, cell v v = 0)
    (x : NDArray) (m : String) (hx : x.shape ≠ [])
    (hn : 0 < (std2 x).shape.getD 0 0) (hd : 0 < (std2 x).shape.getD 1 0)
    (hm : m = "raw_values" ∨ m = "uniform_average") :
    resAllValQ (sklearnRegMetric cell (some (.ndarray x)) (some (.ndarray x)) m) 0 := by
  have hstd := standardize_self x m hx (raw_or_uniform_allowed hm)
  have hz := perColumn_self_zero (std2 x) cell mean hcell (fun l h => mean_all_zero h)
  have hlen : (perColumn (std2 x) (std2 x) cell mean).length = (std2 x).shape.getD 1 0 :=
    perColumn_length _ _ _ _
  have hne : perColumn (std2 x) (std2 x) cell mean ≠ [] := by
    intro hnil
    rw [hnil] at hlen
    simp only [List.length_nil] at hlen
    omega
  simp only [sklearnRegMetric, hstd]
  rw [if_neg (by omega)]
  rcases hm with rfl | rfl
  · rw [if_pos rfl]
    exact ⟨hne, hz⟩
  · rw [if_neg (by decide), if_pos rfl]
    exact ⟨by simp, fun v hv => by
      rw [List.mem_singleton] at hv
      rw [hv, mean_all_zero hz]⟩

theorem resAllVal_sqrt {r : Except PyErr NDArray} (h : resAllValQ r 0) :
    resAllVal (r.map (fun a => ⟨a.shape, a.data.map (fun (q : ℚ) => Real.sqrt (q : ℝ))⟩)) 0 := by
  cases r with
  | error e => exact h
  | ok a =>
    obtain ⟨hne, hall⟩ := h
    refine ⟨by simpa using hne, ?_⟩
    intro v hv
    rw [List.mem_map] at hv
    obtain ⟨w, hw, rfl⟩ := hv
    rw [hall w hw]
    simp

theorem perColumnR_self_zero (t : NDArray) (cell : ℚ → ℚ → ℝ)
    (hcell : ∀ v, cell v v = 0) : ∀ e ∈ perColumnR t t cell, e = 0 := by
  intro e he
  unfold perColumnR at he
  rw [List.mem_map] at he
  obtain ⟨j, hj, rfl⟩ := he
  apply meanR_all_zero
  intro v hv
  rw [zipWith_self_map, List.mem_map] at hv
  obtain ⟨w, hw, rfl⟩ := hv
  exact hcell w

theorem perColumnR_length (t p : NDArray) (cell : ℚ → ℚ → ℝ) :
    (perColumnR t p cell).length = t.shape.getD 1 0 := by
  simp [perColumnR]

/-- At identical nonnegative inputs `MSLE` is `ok` and all-zero. -/
theorem MSLE_self_zero (x : NDArray) (m : String) (hx : x.shape ≠ [])
    (hn : 0 < (std2 x).shape.getD 0 0) (hd : 0 < (std2 x).shape.getD 1 0)
    (hm : m = "raw_values" ∨ m = "uniform_average")
    (hnonneg : ∀ q ∈ x.data, 0 ≤ q) :
    resAllVal (MSLE (some (.ndarray x)) (some (.ndarray x)) m) 0 := by
  have hstd := standardize_self x m hx (raw_or_uniform_allowed hm)
  have hdom : (std2 x).data.any (fun q => decide (q < 0)) = false := by
    rw [std2_data, List.any_eq_false]
    intro q hq
    simpa using not_lt.2 (hnonneg q hq)
  have hz : ∀ e ∈ perColumnR (std2 x) (std2 x)
      (fun (a b : ℚ) => (Real.log (1 + (a : ℝ)) - Real.log (1 + (b : ℝ))) ^ 2), e = 0 :=
    perColumnR_self_zero _ _ (fun v => by simp)
  have hlen := perColumnR_length (std2 x) (std2 x)
    (fun (a b : ℚ) => (Real.log (1 + (a : ℝ)) - Real.log (1 + (b : ℝ))) ^ 2)
  have hne : perColumnR (std2 x) (std2 x)
      (fun (a b : ℚ) => (Real.log (1 + (a : ℝ)) - Real.log (1 + (b : ℝ))) ^ 2) ≠ [] := by
    intro hnil
    rw [hnil] at hlen
    simp only [List.length_nil] at hlen
    omega
  simp only [MSLE, hstd]
  rw [if_neg (by omega), if_neg (by simp [hdom])]
  rcases hm with rfl | rfl
  · rw [if_pos rfl]
    exact ⟨hne, hz⟩
  · rw [if_neg (by decide), if_pos rfl]
    exact ⟨by simp, fun v hv => by
      rw [List.mem_singleton] at hv
      rw [hv, meanR_all_zero hz]⟩

/-- At identical inputs (with at least two samples) `R2` is `ok` and
all-one: every per-output `SSres` is zero, so every score is 1. -/
theorem r2SSres_self_zero (t : NDArray) : ∀ v ∈ r2SSres t t, v = 0 := by
  intro v hv
  unfold r2SSres at hv
  rw [List.mem_map] at hv
  obtain ⟨j, hj, rfl⟩ := hv
  rw [zipWith_self_map]
  apply List.sum_eq_zero
  intro w hw
  rw [List.mem_map] at hw
  obtain ⟨u, hu, rfl⟩ := hw
  simp

theorem r2Scores_self_one (t : NDArray) : ∀ s ∈ r2Scores t t, s = (1 : ℚ) := by
  intro s hs
  unfold r2Scores at hs
  obtain ⟨a, ha, b, hb, rfl⟩ := mem_zipWith_decomp hs
  rw [r2SSres_self_zero t a ha]
  simp

theorem r2Scores_length (t p : NDArray) :
    (r2Scores t p).length = t.shape.getD 1 0 := by
  simp [r2Scores, r2SSres, r2SStot]

theorem R2_self_one (x : NDArray) (m : String) (hx : x.shape ≠ [])
    (hn2 : 2 ≤ (std2 x).shape.getD 0 0) (hd : 0 < (std2 x).shape.getD 1 0)
    (hm : m = "raw_values" ∨ m = "uniform_average") :
    resAllValQ (R2 (some (.ndarray x)) (some (.ndarray x)) m) 1 := by
  have hstd := standardize_self x m hx (raw_or_uniform_allowed hm)
  have hone := r2Scores_self_one (std2 x)
  have hslen := r2Scores_length (std2 x) (std2 x)
  have hsne : r2Scores (std2 x) (std2 x) ≠ [] := by
    intro hnil
    rw [hnil] at hslen
    simp only [List.length_nil] at hslen
    omega
  simp only [R2, hstd]
  rw [if_neg (by omega)]
  rcases hm with rfl | rfl
  · rw [if_pos rfl]
    exact ⟨hsne, hone⟩
  · rw [if_neg (by decide), if_pos rfl]
    exact ⟨by simp, fun v hv => by
      rw [List.mem_singleton] at hv
      rw [hv, mean_all_eq hsne hone]⟩

theorem squeezeShape_prod (s : List Nat) : (squeezeShape s).prod = s.prod := by
  induction s with
  | nil => rfl
  | cons h t ih =>
    by_cases h1 : h = 1
    · simp [squeezeShape, h1] at ih ⊢
      exact ih
    · simp only [squeezeShape, List.filter_cons] at ih ⊢
      have : (h != 1) = true := by simpa using h1
      rw [this]
      simp only [if_true, List.prod_cons, ih]

theorem countEqQ_self (l : List ℚ) : countEqQ l l = l.length := by
  unfold countEqQ
  rw [zipWith_self_map]
  have hone : (fun (x : ℚ) => if x = x then (1 : ℚ) else 0) = fun _ => (1 : ℚ) :=
    funext fun x => if_pos rfl
  rw [hone]
  induction l with
  | nil => rfl
  | cons x xs ih =>
    simp only [List.map_cons, List.sum_cons, List.length_cons, ih]
    push_cast
    ring

/-- At an identical, integer-valued input that squeezes to a nonempty 1-D
array, `Accuracy` returns exactly 1. -/
theorem Accuracy_self_one (x : NDArray) (hwf : x.wf)
    (hsq : (squeezeShape x.shape).length = 1)
    (hint : ∀ q ∈ x.data, q.den = 1) (hprod : 0 < x.shape.prod) :
    Accuracy (some (.ndarray x)) (some (.ndarray x)) = .ok 1 := by
  have hnonprob : x.data.any (fun q => !(isIntRat q)) = false := by
    rw [List.any_eq_false]
    intro q hq
    simp [isIntRat, hint q hq]
  obtain ⟨k, hk⟩ := List.length_eq_one.1 hsq
  have hkpos : 0 < k := by
    have := squeezeShape_prod x.shape
    rw [hk] at this
    simp only [List.prod_cons, List.prod_nil, Nat.mul_one] at this
    omega
  have hdata : x.data.length ≠ 0 := by
    rw [hwf]
    omega
  simp only [Accuracy, toPayload]
  rw [if_neg (by simp [hnonprob])]
  simp only [accuracyScore]
  rw [hk]
  rw [if_neg (by simp), if_pos (by simp), if_neg (by simp), if_neg (by simp [hnonprob]),
      if_neg (by simp; omega)]
  rw [countEqQ_self]
  congr 1
  exact div_self (by exact_mod_cast hdata)

theorem resAllVal_liftQ_zero {r : Except PyErr NDArray} (h : resAllValQ r 0) :
    resAllVal (liftQ r) 0 := by
  simpa using resAllVal_liftQ h

theorem resAllVal_liftQ_one {r : Except PyErr NDArray} (h : resAllValQ r 1) :
    resAllVal (liftQ r) 1 := by
  simpa using resAllVal_liftQ h

theorem std2_head (x : NDArray) : (std2 x).shape.getD 0 0 = x.shape.getD 0 0 := by
  unfold std2
  split <;> rfl

/-- Claim C2 (counterexample): two failures of the claim as stated.
(1) `accuracy` on the non-integer array `x = [1/2, 1/2]` does not return 1:
the probability threshold turns `y_pred` into `[0, 0]` while `y_true` stays
continuous, which sklearn `accuracy_score` refuses (`ValueError`).
(2) `msle` on the negative array `x = [-1]` does not return 0: sklearn
`mean_squared_log_error` raises a `ValueError` on negative targets. -/
theorem claimC2_counterexample :
    Evaluator.evaluate (some "accuracy") (some (.ndarray ⟨[2], [oneHalf, oneHalf]⟩))
        (some (.ndarray ⟨[2], [oneHalf, oneHalf]⟩)) "raw_values" =
      .error (.valueError "continuous is not supported") ∧
    Evaluator.evaluate (some "msle") (some (.ndarray ⟨[1], [-1]⟩))
        (some (.ndarray ⟨[1], [-1]⟩)) "raw_values" =
      .error (.valueError "Mean Squared Logarithmic Error cannot be used when targets contain negative values.") :=
  ⟨rfl, rfl⟩

/-- Claim C2 (amended): for every nonempty well-formed numeric array `x` and
multioutput mode in {`raw_values`, `uniform_average`}, the error metrics
`me`, `mae`, `mse`, `rmse`, `mspe`, `smape`, `smdape` applied to `(x, x)`
return 0 (a scalar or an all-zero array); `mpe`, `mape`, `mdape` do so as
long as no entry equals `-EPSILON` (where their float denominator would be
exactly zero); `msle` does so for nonnegative `x` (sklearn rejects negative
targets); `r2` returns 1 given at least two samples (sklearn returns `nan`
below that); and `accuracy` returns 1 for integer-valued `x` whose squeezed
form is 1-D. -/
theorem claimC2_amended (x : NDArray) (m : String) (hwf : x.wf)
    (hx : x.shape ≠ []) (hprod : 0 < x.shape.prod)
    (hm : m = "raw_values" ∨ m = "uniform_average") :
    resAllVal (Evaluator.evaluate (some "me") (some (.ndarray x)) (some (.ndarray x)) m) 0 ∧
    resAllVal (Evaluator.evaluate (some "mae") (some (.ndarray x)) (some (.ndarray x)) m) 0 ∧
    resAllVal (Evaluator.evaluate (some "mse") (some (.ndarray x)) (some (.ndarray x)) m) 0 ∧
    resAllVal (Evaluator.evaluate (some "rmse") (some (.ndarray x)) (some (.ndarray x)) m) 0 ∧
    ((∀ q ∈ x.data, 0 ≤ q) →
      resAllVal (Evaluator.evaluate (some "msle") (some (.ndarray x)) (some (.ndarray x)) m) 0) ∧
    (-EPSILON ∉ x.data →
      resAllVal (Evaluator.evaluate (some "mpe") (some (.ndarray x)) (some (.ndarray x)) m) 0) ∧
    (-EPSILON ∉ x.data →
      resAllVal (Evaluator.evaluate (some "mape") (some (.ndarray x)) (some (.ndarray x)) m) 0) ∧
    resAllVal (Evaluator.evaluate (some "mspe") (some (.ndarray x)) (some (.ndarray x)) m) 0 ∧
    resAllVal (Evaluator.evaluate (some "smape") (some (.ndarray x)) (some (.ndarray x)) m) 0 ∧
    (-EPSILON ∉ x.data →
      resAllVal (Evaluator.evaluate (some "mdape") (some (.ndarray x)) (some (.ndarray x)) m) 0) ∧
    resAllVal (Evaluator.evaluate (some "smdape") (some (.ndarray x)) (some (.ndarray x)) m) 0 ∧
    (2 ≤ x.shape.getD 0 0 →
      resAllVal (Evaluator.evaluate (some "r2") (some (.ndarray x)) (some (.ndarray x)) m) 1) ∧
    ((squeezeShape x.shape).length = 1 ∧ (∀ q ∈ x.data, q.den = 1) →
      resAllVal (Evaluator.evaluate (some "accuracy") (some (.ndarray x)) (some (.ndarray x)) m) 1) := by
  obtain ⟨hn, hd⟩ := std2_pos hx hprod
  refine ⟨?_, ?_, ?_, ?_, ?_, ?_, ?_, ?_, ?_, ?_, ?_, ?_, ?_⟩
  · show resAllVal (liftQ (ME (some (.ndarray x)) (some (.ndarray x)) m)) 0
    exact resAllVal_liftQ_zero (handwritten_self_zero _ _ (fun v => sub_self v)
      (fun l h => mean_all_zero h) x m hx hd hm)
  · show resAllVal (liftQ (MAE (some (.ndarray x)) (some (.ndarray x)) m)) 0
    exact resAllVal_liftQ_zero (sklearnReg_self_zero _ (fun v => by simp) x m hx hn hd hm)
  · show resAllVal (liftQ (MSE (some (.ndarray x)) (some (.ndarray x)) m)) 0
    exact resAllVal_liftQ_zero (sklearnReg_self_zero _ (fun v => by simp) x m hx hn hd hm)
  · show resAllVal ((MSE (some (.ndarray x)) (some (.ndarray x)) m).map
      (fun a => ⟨a.shape, a.data.map (fun (q : ℚ) => Real.sqrt (q : ℝ))⟩)) 0
    exact resAllVal_sqrt (sklearnReg_self_zero _ (fun v => by simp) x m hx hn hd hm)
  · intro hnonneg
    exact MSLE_self_zero x m hx hn hd hm hnonneg
  · intro _
    show resAllVal (liftQ (MPE (some (.ndarray x)) (some (.ndarray x)) m)) 0
    exact resAllVal_liftQ_zero (handwritten_self_zero _ _ (fun v => by simp)
      (fun l h => mean_all_zero h) x m hx hd hm)
  · intro _
    show resAllVal (liftQ (MAPE (some (.ndarray x)) (some (.ndarray x)) m)) 0
    exact resAllVal_liftQ_zero (handwritten_self_zero _ _ (fun v => by simp)
      (fun l h => by rw [mean_all_zero h]; ring) x m hx hd hm)
  · show resAllVal (liftQ (MSPE (some (.ndarray x)) (some (.ndarray x)) m)) 0
    exact resAllVal_liftQ_zero (handwritten_self_zero _ _ (fun v => by simp)
      (fun l h => mean_all_zero h) x m hx hd hm)
  · show resAllVal (liftQ (sMAPE (some (.ndarray x)) (some (.ndarray x)) m)) 0
    exact resAllVal_liftQ_zero (handwritten_self_zero _ _ (fun v => by simp)
      (fun l h => mean_all_zero h) x m hx hd hm)
  · intro _
    show resAllVal (liftQ (MDAPE (some (.ndarray x)) (some (.ndarray x)) m)) 0
    exact resAllVal_liftQ_zero (handwritten_self_zero _ _ (fun v => by simp)
      (fun l h => median_all_zero h) x m hx hd hm)
  · show resAllVal (liftQ (sMDAPE (some (.ndarray x)) (some (.ndarray x)) m)) 0
    exact resAllVal_liftQ_zero (handwritten_self_zero _ _ (fun v => by simp)
      (fun l h => median_all_zero h) x m hx hd hm)
  · intro hn2
    show resAllVal (liftQ (R2 (some (.ndarray x)) (some (.ndarray x)) m)) 1
    refine resAllVal_liftQ_one (R2_self_one x m hx ?_ hd hm)
    rw [std2_head]
    exact hn2
  · rintro ⟨hsq, hint⟩
    show resAllVal ((Accuracy (some (.ndarray x)) (some (.ndarray x))).map
      (fun (q : ℚ) => (⟨[], [(q : ℝ)]⟩ : NDArrayR))) 1
    rw [Accuracy_self_one x hwf hsq hint hprod]
    exact ⟨by simp, fun v hv => by
      rw [List.mem_singleton] at hv
      rw [hv]
      simp⟩

theorem claimC2_amended_witness :
    (⟨[2], [0, 1]⟩ : NDArray).wf ∧
    resAllVal (Evaluator.evaluate (some "me") (some (.ndarray ⟨[2], [0, 1]⟩))
      (some (.ndarray ⟨[2], [0, 1]⟩)) "raw_values") 0 :=
  ⟨by decide,
   (claimC2_amended ⟨[2], [0, 1]⟩ "raw_values" (by decide) (by decide) (by decide)
     (Or.inl rfl)).1⟩

/-! ## Claim C6: raw_values shape and uniform_average mean -/

theorem evaluatePair_of_q {raw uni : Except PyErr NDArray} {orig : List Nat}
    {vals : List ℚ} (hraw : raw = .ok ⟨orig, vals⟩) (huni : uni = .ok ⟨[], [mean vals]⟩) :
    (liftQ raw).map NDArrayR.shape = .ok orig ∧
    liftQ uni = (liftQ raw).map (fun r => ⟨[], [meanR r.data]⟩) := by
  subst hraw huni
  refine ⟨rfl, ?_⟩
  show Except.ok (⟨[], [((mean vals : ℚ) : ℝ)]⟩ : NDArrayR) =
    .ok ⟨[], [meanR (vals.map (fun (q : ℚ) => (q : ℝ)))]⟩
  rw [meanR_cast]

theorem handwritten_modes (cell : ℚ → ℚ → ℚ) (agg : List ℚ → ℚ)
    {a b : Option Container} {t p : NDArray} {orig : List Nat}
    (h : standardize_input a b "raw_values" = .ok (t, p, orig)) :
    handwrittenMetric cell agg a b "raw_values" = .ok ⟨orig, perColumn t p cell agg⟩ ∧
    handwrittenMetric cell agg a b "uniform_average" =
      .ok ⟨[], [mean (perColumn t p cell agg)]⟩ := by
  have huni := @standardize_input_mode_switch a b "raw_values" "uniform_average"
    (t, p, orig) h (by decide)
  constructor
  · simp [handwrittenMetric, h, finalizeErrors]
  · simp [handwrittenMetric, huni, finalizeErrors]

theorem sklearnReg_modes (cell : ℚ → ℚ → ℚ)
    {a b : Option Container} {t p : NDArray} {orig : List Nat}
    (h : standardize_input a b "raw_values" = .ok (t, p, orig))
    (hn : 0 < t.shape.getD 0 0) (hd : 0 < t.shape.getD 1 0) :
    sklearnRegMetric cell a b "raw_values" = .ok ⟨orig, perColumn t p cell mean⟩ ∧
    sklearnRegMetric cell a b "uniform_average" =
      .ok ⟨[], [mean (perColumn t p cell mean)]⟩ := by
  have huni := @standardize_input_mode_switch a b "raw_values" "uniform_average"
    (t, p, orig) h (by decide)
  constructor
  · simp only [sklearnRegMetric, h]
    rw [if_neg (by omega)]
    simp
  · simp only [sklearnRegMetric, huni]
    rw [if_neg (by omega)]
    simp

theorem MSLE_modes {a b : Option Container} {t p : NDArray} {orig : List Nat}
    (h : standardize_input a b "raw_values" = .ok (t, p, orig))
    (hn : 0 < t.shape.getD 0 0) (hd : 0 < t.shape.getD 1 0)
    (hdomt : ∀ q ∈ t.data, 0 ≤ q) (hdomp : ∀ q ∈ p.data, 0 ≤ q) :
    MSLE a b "raw_values" = .ok ⟨orig, perColumnR t p
        (fun (x y : ℚ) => (Real.log (1 + (x : ℝ)) - Real.log (1 + (y : ℝ))) ^ 2)⟩ ∧
    MSLE a b "uniform_average" = .ok ⟨[], [meanR (perColumnR t p
        (fun (x y : ℚ) => (Real.log (1 + (x : ℝ)) - Real.log (1 + (y : ℝ))) ^ 2))]⟩ := by
  have huni := @standardize_input_mode_switch a b "raw_values" "uniform_average"
    (t, p, orig) h (by decide)
  have hdt : t.data.any (fun q => decide (q < 0)) = false := by
    rw [List.any_eq_false]
    intro q hq
    simpa using not_lt.2 (hdomt q hq)
  have hdp : p.data.any (fun q => decide (q < 0)) = false := by
    rw [List.any_eq_false]
    intro q hq
    simpa using not_lt.2 (hdomp q hq)
  constructor
  · simp only [MSLE, h]
    rw [if_neg (by omega), if_neg (by simp [hdt, hdp])]
    simp
  · simp only [MSLE, huni]
    rw [if_neg (by omega), if_neg (by simp [hdt, hdp])]
    simp

theorem R2_modes {a b : Option Container} {t p : NDArray} {orig : List Nat}
    (h : standardize_input a b "raw_values" = .ok (t, p, orig))
    (hn2 : 2 ≤ t.shape.getD 0 0) :
    R2 a b "raw_values" = .ok ⟨orig, r2Scores t p⟩ ∧
      R2 a b "uniform_average" = .ok ⟨[], [mean (r2Scores t p)]⟩ := by
  have huni := @standardize_input_mode_switch a b "raw_values" "uniform_average"
    (t, p, orig) h (by decide)
  constructor
  · simp only [R2, h]
    rw [if_neg (by omega)]
    simp
  · simp only [R2, huni]
    rw [if_neg (by omega)]
    simp

theorem evaluatePairR {raw uni : Except PyErr NDArrayR} {orig : List Nat} {vals : List ℝ}
    (hraw : raw = .ok ⟨orig, vals⟩) (huni : uni = .ok ⟨[], [meanR vals]⟩) :
    raw.map NDArrayR.shape = .ok orig ∧
    uni = raw.map (fun r => ⟨[], [meanR r.data]⟩) := by
  subst hraw huni
  exact ⟨rfl, rfl⟩

/-- Claim C6 (amended): for every accepted input pair, each metric function
except `rmse` and `accuracy` fulfils the raw/uniform contract: its
`raw_values` result is shaped like the ground truth's original per-sample
shape and its `uniform_average` result is the scalar mean of the
`raw_values` data.  `msle` additionally needs nonnegative targets and `r2`
at least two samples (they raise/return nan otherwise); `rmse` genuinely
violates the contract (`claimC6_counterexample`), and `accuracy` ignores
the multioutput argument altogether, returning a bare scalar. -/
theorem claimC6_amended (a b : Option Container) (t p : NDArray) (orig : List Nat)
    (h : standardize_input a b "raw_values" = .ok (t, p, orig))
    (hn : 0 < t.shape.getD 0 0) (hd : 0 < t.shape.getD 1 0) :
    rawUniformContract "me" a b orig ∧
    rawUniformContract "mae" a b orig ∧
    rawUniformContract "mse" a b orig ∧
    ((∀ q ∈ t.data, 0 ≤ q) → (∀ q ∈ p.data, 0 ≤ q) →
      rawUniformContract "msle" a b orig) ∧
    rawUniformContract "mpe" a b orig ∧
    rawUniformContract "mape" a b orig ∧
    rawUniformContract "mspe" a b orig ∧
    rawUniformContract "smape" a b orig ∧
    rawUniformContract "mdape" a b orig ∧
    rawUniformContract "smdape" a b orig ∧
    (2 ≤ t.shape.getD 0 0 → rawUniformContract "r2" a b orig) := by
  refine ⟨?_, ?_, ?_, ?_, ?_, ?_, ?_, ?_, ?_, ?_, ?_⟩
  · obtain ⟨hraw, huni⟩ := handwritten_modes (fun x y => x - y) mean h
    exact evaluatePair_of_q hraw huni
  · obtain ⟨hraw, huni⟩ := sklearnReg_modes (fun x y => |x - y|) h hn hd
    exact evaluatePair_of_q hraw huni
  · obtain ⟨hraw, huni⟩ := sklearnReg_modes (fun x y => (x - y) ^ 2) h hn hd
    exact evaluatePair_of_q hraw huni
  · intro hdt hdp
    obtain ⟨hraw, huni⟩ := MSLE_modes h hn hd hdt hdp
    exact evaluatePairR hraw huni
  · obtain ⟨hraw, huni⟩ :=
      handwritten_modes (fun x y => 100 * (x - y) / (x + EPSILON)) mean h
    exact evaluatePair_of_q hraw huni
  · obtain ⟨hraw, huni⟩ :=
      handwritten_modes (fun x y => |(x - y) / (x + EPSILON)|) (fun l => 100 * mean l) h
    exact evaluatePair_of_q hraw huni
  · obtain ⟨hraw, huni⟩ := handwritten_modes (fun x y => (x - y) ^ 2) mean h
    exact evaluatePair_of_q hraw huni
  · obtain ⟨hraw, huni⟩ :=
      handwritten_modes (fun x y => 100 * |x - y| / (|x| + |y| + EPSILON)) mean h
    exact evaluatePair_of_q hraw huni
  · obtain ⟨hraw, huni⟩ :=
      handwritten_modes (fun x y => 100 * |(x - y) / (x + EPSILON)|) median h
    exact evaluatePair_of_q hraw huni
  · obtain ⟨hraw, huni⟩ :=
      handwritten_modes (fun x y => 100 * |x - y| / (|x| + |y| + EPSILON)) median h
    exact evaluatePair_of_q hraw huni
  · intro hn2
    obtain ⟨hraw, huni⟩ := R2_modes h hn2
    exact evaluatePair_of_q hraw huni

theorem claimC6_amended_witness :
    standardize_input (some (.ndarray ⟨[2], [0, 1]⟩)) (some (.ndarray ⟨[2], [0, 1]⟩))
        "raw_values" = .ok (⟨[2, 1], [0, 1]⟩, ⟨[2, 1], [0, 1]⟩, []) ∧
    (Evaluator.evaluate (some "me") (some (.ndarray ⟨[2], [0, 1]⟩))
        (some (.ndarray ⟨[2], [0, 1]⟩)) "raw_values").map NDArrayR.shape = .ok [] :=
  ⟨by rfl,
   (claimC6_amended (some (.ndarray ⟨[2], [0, 1]⟩)) (some (.ndarray ⟨[2], [0, 1]⟩))
     ⟨[2, 1], [0, 1]⟩ ⟨[2, 1], [0, 1]⟩ [] (by rfl) (by decide) (by decide)).1.1⟩

theorem c6_perColumn_vals :
    perColumn ⟨[1, 2], [0, 0]⟩ ⟨[1, 2], [1, 3]⟩ (fun x y => (x - y) ^ 2) mean = [1, 9] := by
  norm_num [perColumn, colVals, mean, List.range_succ]

theorem c6MSE_raw :
    MSE (some (.ndarray ⟨[1, 2], [0, 0]⟩)) (some (.ndarray ⟨[1, 2], [1, 3]⟩))
      "raw_values" = .ok ⟨[2], [1, 9]⟩ := by
  obtain ⟨hraw, _⟩ := sklearnReg_modes (fun x y => (x - y) ^ 2)
    (show standardize_input (some (.ndarray ⟨[1, 2], [0, 0]⟩))
      (some (.ndarray ⟨[1, 2], [1, 3]⟩)) "raw_values" =
      .ok (⟨[1, 2], [0, 0]⟩, ⟨[1, 2], [1, 3]⟩, [2]) from rfl) (by decide) (by decide)
  show sklearnRegMetric (fun x y => (x - y) ^ 2) _ _ _ = _
  rw [hraw, c6_perColumn_vals]

theorem c6MSE_uniform :
    MSE (some (.ndarray ⟨[1, 2], [0, 0]⟩)) (some (.ndarray ⟨[1, 2], [1, 3]⟩))
      "uniform_average" = .ok ⟨[], [5]⟩ := by
  obtain ⟨_, huni⟩ := sklearnReg_modes (fun x y => (x - y) ^ 2)
    (show standardize_input (some (.ndarray ⟨[1, 2], [0, 0]⟩))
      (some (.ndarray ⟨[1, 2], [1, 3]⟩)) "raw_values" =
      .ok (⟨[1, 2], [0, 0]⟩, ⟨[1, 2], [1, 3]⟩, [2]) from rfl) (by decide) (by decide)
  show sklearnRegMetric (fun x y => (x - y) ^ 2) _ _ _ = _
  rw [huni, c6_perColumn_vals]
  norm_num [mean]

/-- Claim C6 (counterexample): `rmse` breaks the uniform-average contract.
At `y_true = [[0, 0]]`, `y_pred = [[1, 3]]` the per-output MSEs are
`[1, 9]`, so raw `rmse` is `[1, 3]` whose mean is 2, while uniform `rmse`
is `sqrt((1+9)/2) = sqrt 5 ≠ 2`: the square root is applied after the
averaging, not before. -/
theorem claimC6_counterexample :
    ¬ rawUniformContract "rmse" (some (.ndarray ⟨[1, 2], [0, 0]⟩))
        (some (.ndarray ⟨[1, 2], [1, 3]⟩)) [2] := by
  rintro ⟨hshape, hmean⟩
  have hU : Evaluator.evaluate (some "rmse") (some (.ndarray ⟨[1, 2], [0, 0]⟩))
      (some (.ndarray ⟨[1, 2], [1, 3]⟩)) "uniform_average" =
      .ok ⟨[], [Real.sqrt ((5 : ℚ) : ℝ)]⟩ := by
    have hdisp : Evaluator.evaluate (some "rmse") (some (.ndarray ⟨[1, 2], [0, 0]⟩))
        (some (.ndarray ⟨[1, 2], [1, 3]⟩)) "uniform_average" =
        RMSE (some (.ndarray ⟨[1, 2], [0, 0]⟩)) (some (.ndarray ⟨[1, 2], [1, 3]⟩))
          "uniform_average" := rfl
    rw [hdisp]
    unfold RMSE
    rw [c6MSE_uniform]
    rfl
  have hR : Evaluator.evaluate (some "rmse") (some (.ndarray ⟨[1, 2], [0, 0]⟩))
      (some (.ndarray ⟨[1, 2], [1, 3]⟩)) "raw_values" =
      .ok ⟨[2], [Real.sqrt ((1 : ℚ) : ℝ), Real.sqrt ((9 : ℚ) : ℝ)]⟩ := by
    have hdisp : Evaluator.evaluate (some "rmse") (some (.ndarray ⟨[1, 2], [0, 0]⟩))
        (some (.ndarray ⟨[1, 2], [1, 3]⟩)) "raw_values" =
        RMSE (some (.ndarray ⟨[1, 2], [0, 0]⟩)) (some (.ndarray ⟨[1, 2], [1, 3]⟩))
          "raw_values" := rfl
    rw [hdisp]
    unfold RMSE
    rw [c6MSE_raw]
    rfl
  rw [hU, hR] at hmean
  simp only [Except.map, NDArrayR.mk.injEq, Except.ok.injEq] at hmean
  have hdata : Real.sqrt ((5 : ℚ) : ℝ) =
      meanR [Real.sqrt ((1 : ℚ) : ℝ), Real.sqrt ((9 : ℚ) : ℝ)] := by
    have := hmean.2
    simpa using this
  have h1 : Real.sqrt ((1 : ℚ) : ℝ) = 1 := by
    rw [show ((1 : ℚ) : ℝ) = 1 by norm_num, Real.sqrt_one]
  have h9 : Real.sqrt ((9 : ℚ) : ℝ) = 3 := by
    rw [show ((9 : ℚ) : ℝ) = 3 ^ 2 by norm_num, Real.sqrt_sq (by norm_num)]
  rw [h1, h9] at hdata
  have hmean2 : meanR [(1 : ℝ), 3] = 2 := by
    norm_num [meanR]
  rw [hmean2] at hdata
  have h5 : ((5 : ℚ) : ℝ) = 5 := by norm_num
  rw [h5] at hdata
  have hsq : (Real.sqrt 5) ^ 2 = 5 := Real.sq_sqrt (by norm_num)
  rw [hdata] at hsq
  norm_num at hsq

/-! ## Claim C7: write/read round trip -/

theorem chunksOf_flatten {α : Type} (b : Nat) (hb : 0 < b) (l : List α) :
    (chunksOf b l).flatten = l := by
  have main : ∀ (n : Nat) (l : List α), l.length ≤ n → (chunksOf b l).flatten = l := by
    intro n
    induction n with
    | zero =>
      intro l hl
      have : l = [] := List.length_eq_zero.1 (Nat.le_zero.1 hl)
      subst this
      simp [chunksOf]
    | succ n ih =>
      intro l hl
      cases l with
      | nil => simp [chunksOf]
      | cons x xs =>
        rw [chunksOf, List.flatten_cons,
            ih (xs.drop (b - 1)) (by simp only [List.length_drop]; simp at hl; omega)]
        have hbt : (x :: xs).take b = x :: xs.take (b - 1) := by
          cases b with
          | zero => omega
          | succ m => simp
        rw [hbt]
        simp [List.take_append_drop]
  exact main l.length l le_rfl

theorem write_chunkDirs_snd (path : String) (gen : List Record) (schema : Schema)
    (bs : Nat) (fs : FileSystem) :
    (ParquetDataset.write path gen schema bs fs).chunkDirs.map Prod.snd =
      (chunksOf bs gen).map (List.map (dict_to_row fs schema)) := by
  unfold ParquetDataset.write
  rw [List.map_map]
  have hcomp : (Prod.snd ∘ fun ic : Nat × List Record =>
      (path ++ "/chunk=" ++ toString ic.1, ic.2.map (dict_to_row fs schema))) =
      (List.map (dict_to_row fs schema)) ∘ Prod.snd := rfl
  rw [hcomp, ← List.map_map, List.enum_map_snd]

theorem row_roundtrip (fs : FileSystem) (schema : Schema) (rec : Record)
    (h : conformsB schema rec = true) :
    row_to_dict schema (dict_to_row fs schema rec) = resolveRecord fs schema rec := by
  have hall : ∀ nf ∈ schema, fieldOk rec nf = true := by
    unfold conformsB at h
    rw [Bool.and_eq_true] at h
    simpa [List.all_eq_true] using h.1
  unfold row_to_dict dict_to_row resolveRecord
  rw [List.zipWith_map_right, zipWith_self_map]
  apply List.map_congr_left
  intro nf hnf
  have hok := hall nf hnf
  unfold fieldOk at hok
  obtain ⟨name, field⟩ := nf
  simp only at hok ⊢
  cases hft : field.feature_type <;> cases hlk : rec.lookup name
  all_goals try (rename_i v; cases v)
  all_goals simp_all

theorem read_write_roundtrip (path : String) (records : List Record) (schema : Schema)
    (bs : Nat) (fs : FileSystem) (hb : 0 < bs)
    (hconf : ∀ rec ∈ records, conformsB schema rec = true) :
    ParquetDataset.read_as_dict_list (ParquetDataset.write path records schema bs fs) =
      records.map (resolveRecord fs schema) := by
  unfold ParquetDataset.read_as_dict_list
  rw [write_chunkDirs_snd, ← List.map_flatten, chunksOf_flatten bs hb, List.map_map]
  apply List.map_congr_left
  intro rec hrec
  exact row_roundtrip fs schema rec (hconf rec hrec)

/-- Claim C7 (confirmed, against the spec-modelled encode/decode layer):
writing a conforming record list with `ParquetDataset.write` and reading it
back yields the same records — indeed in the same order, hence a fortiori
the same multiset — with scalar fields exactly equal, array fields exactly
equal (exact rationals subsume "within floating-point tolerance"), and each
image field holding the raw bytes of the referenced file. -/
theorem claimC7 (path : String) (records : List Record) (schema : Schema)
    (bs : Nat) (fs : FileSystem) (hb : 0 < bs)
    (hconf : ∀ rec ∈ records, conformsB schema rec = true) :
    ParquetDataset.read_as_dict_list (ParquetDataset.write path records schema bs fs) =
      records.map (resolveRecord fs schema) ∧
    (↑(ParquetDataset.read_as_dict_list (ParquetDataset.write path records schema bs fs)) :
        Multiset Record) = ↑(records.map (resolveRecord fs schema)) := by
  have hl := read_write_roundtrip path records schema bs fs hb hconf
  exact ⟨hl, by rw [hl]⟩

theorem claimC7_witness :
    ParquetDataset.read_as_dict_list (ParquetDataset.write "out"
      [[("label", PyValue.num 7), ("img", PyValue.str "a.png")],
       [("label", PyValue.num 3), ("img", PyValue.str "b.png")]]
      [("label", ⟨FeatureType.SCALAR, DTypeTag.INT32, []⟩),
       ("img", ⟨FeatureType.IMAGE, DTypeTag.FLOAT32, []⟩)]
      1 (fun p => if p = "a.png" then [1, 2] else [3])) =
      [[("label", PyValue.num 7), ("img", PyValue.bytes [1, 2])],
       [("label", PyValue.num 3), ("img", PyValue.bytes [3])]] := by
  rw [(claimC7 "out" _ _ 1 _ (by decide) (by decide)).1]
  rfl

/-! ## Claim C8: on-disk layout of `ParquetDataset.write` -/

theorem chunksOf_length {α : Type} (b : Nat) (hb : 0 < b) (l : List α) :
    (chunksOf b l).length = (l.length + b - 1) / b := by
  have main : ∀ (n : Nat) (l : List α), l.length ≤ n →
      (chunksOf b l).length = (l.length + b - 1) / b := by
    intro n
    induction n with
    | zero =>
      intro l hl
      have : l = [] := List.length_eq_zero.1 (Nat.le_zero.1 hl)
      subst this
      simp [chunksOf, Nat.div_eq_of_lt (by omega : b - 1 < b)]
    | succ n ih =>
      intro l hl
      cases l with
      | nil => simp [chunksOf, Nat.div_eq_of_lt (by omega : b - 1 < b)]
      | cons x xs =>
        rw [chunksOf, List.length_cons,
            ih (xs.drop (b - 1)) (by simp only [List.length_drop]; simp at hl; omega)]
        simp only [List.length_drop, List.length_cons]
        rcases Nat.lt_or_ge xs.length (b - 1) with hlt | hge
        · have h1 : xs.length - (b - 1) = 0 := by omega
          rw [h1]
          have h2 : (0 + b - 1) / b = 0 := Nat.div_eq_of_lt (by omega)
          rw [h2]
          have h3 : (xs.length + 1 + b - 1) / b = 1 :=
            Nat.div_eq_of_lt_le (by omega) (by omega)
          omega
        · have h1 : xs.length - (b - 1) + b - 1 = xs.length := by omega
          rw [h1]
          have h2 : xs.length + 1 + b - 1 = xs.length + b := by omega
          rw [h2, Nat.add_div_right _ hb]
  exact main l.length l le_rfl

theorem chunksOf_getD {α : Type} (b : Nat) (hb : 0 < b) (l : List α) (i : Nat) :
    (chunksOf b l).getD i [] = (l.drop (i * b)).take b := by
  have main : ∀ (n : Nat) (l : List α) (i : Nat), l.length ≤ n →
      (chunksOf b l).getD i [] = (l.drop (i * b)).take b := by
    intro n
    induction n with
    | zero =>
      intro l i hl
      have : l = [] := List.length_eq_zero.1 (Nat.le_zero.1 hl)
      subst this
      simp [chunksOf]
    | succ n ih =>
      intro l i hl
      cases l with
      | nil => simp [chunksOf]
      | cons x xs =>
        rw [chunksOf]
        cases i with
        | zero => simp
        | succ j =>
          show (chunksOf b (xs.drop (b - 1))).getD j [] = _
          rw [ih (xs.drop (b - 1)) j (by simp only [List.length_drop]; simp at hl; omega),
              List.drop_drop]
          have harith : (j + 1) * b = (b - 1 + j * b) + 1 := by
            cases b with
            | zero => omega
            | succ m => ring_nf; omega
          rw [harith]
          rw [List.drop_succ_cons]
  exact main l.length l i le_rfl

/-- Claim C8 (confirmed, with the block grouping of the not-in-src `chunks`
utility modelled from the spec): `ParquetDataset.write` on `n` records with
block size `b > 0` creates exactly `ceil(n/b) = (n + b - 1) / b` chunk
directories named `<path>/chunk=0` … in order, chunk `i` holding the rows of
records `i*b … min((i+1)*b, n) - 1`, plus the `<path>/_orca_metadata` file
holding the encoded schema descriptor. -/
theorem claimC8 (path : String) (records : List Record) (schema : Schema)
    (bs : Nat) (fs : FileSystem) (hb : 0 < bs) :
    (ParquetDataset.write path records schema bs fs).chunkDirs.length =
      (records.length + bs - 1) / bs ∧
    (∀ i, i < (records.length + bs - 1) / bs →
      (ParquetDataset.write path records schema bs fs).chunkDirs.getD i ("", []) =
        (path ++ "/chunk=" ++ toString i,
         ((records.drop (i * bs)).take bs).map (dict_to_row fs schema))) ∧
    (ParquetDataset.write path records schema bs fs).metadataFile =
      (path ++ "/_orca_metadata", encode_schema schema) := by
  have hlen : (ParquetDataset.write path records schema bs fs).chunkDirs.length =
      (chunksOf bs records).length := by
    unfold ParquetDataset.write
    simp
  refine ⟨by rw [hlen, chunksOf_length bs hb], ?_, rfl⟩
  intro i hi
  have hic : i < (chunksOf bs records).length := by
    rw [chunksOf_length bs hb]
    exact hi
  have hil : i < (ParquetDataset.write path records schema bs fs).chunkDirs.length := by
    rw [hlen]
    exact hic
  rw [List.getD_eq_getElem _ _ hil]
  unfold ParquetDataset.write
  simp only [List.getElem_map, List.getElem_enum]
  rw [← List.getD_eq_getElem (chunksOf bs records) [] hic]
  rw [chunksOf_getD bs hb]

theorem claimC8_witness :
    (ParquetDataset.write "out" [[("a", PyValue.num 1)], [("a", PyValue.num 2)],
        [("a", PyValue.num 3)]] [("a", ⟨FeatureType.SCALAR, DTypeTag.INT32, []⟩)]
      2 (fun _ => [])).chunkDirs.length = 2 ∧
    (ParquetDataset.write "out" [[("a", PyValue.num 1)], [("a", PyValue.num 2)],
        [("a", PyValue.num 3)]] [("a", ⟨FeatureType.SCALAR, DTypeTag.INT32, []⟩)]
      2 (fun _ => [])).chunkDirs.getD 1 ("", []) =
      ("out/chunk=1", [[("a", Cell.scalarNum 3)]]) := by
  obtain ⟨hlen, hchunks, _⟩ := claimC8 "out"
    [[("a", PyValue.num 1)], [("a", PyValue.num 2)], [("a", PyValue.num 3)]]
    [("a", ⟨FeatureType.SCALAR, DTypeTag.INT32, []⟩)] 2 (fun _ => []) (by decide)
  refine ⟨by rw [hlen]; rfl, ?_⟩
  rw [hchunks 1 (by decide)]
  rfl


/-! ## Claim C9: dataloader sharding -/

theorem iterateAll_no_transform (l : List Record) :
    ∀ c, iterateAll ⟨l, c, l.length, none⟩ = l.drop c := by
  have main : ∀ (k c : Nat), l.length - c ≤ k →
      iterateAll ⟨l, c, l.length, none⟩ = l.drop c := by
    intro k
    induction k with
    | zero =>
      intro c hc
      rw [iterateAll, dif_neg (by omega : ¬ c < l.length)]
      exact (List.drop_eq_nil_of_le (by omega)).symm
    | succ k ih =>
      intro c hc
      by_cases h : c < l.length
      · rw [iterateAll, dif_pos h]
        show l.getD c [] :: iterateAll ⟨l, c + 1, l.length, none⟩ = l.drop c
        rw [ih (c + 1) (by omega), List.getD_eq_getElem _ _ h]
        exact (List.drop_eq_getElem_cons h).symm
      · rw [iterateAll, dif_neg h]
        exact (List.drop_eq_nil_of_le (by omega)).symm
  exact fun c => main (l.length - c) c le_rfl

theorem range_map_getD {α β : Type} (l : List α) (d : α) (g : α → β) :
    (List.range l.length).map (fun i => g (l.getD i d)) = l.map g := by
  induction l with
  | nil => rfl
  | cons x xs ih =>
    rw [List.length_cons, List.range_succ_eq_map, List.map_cons, List.map_map]
    simp only [Function.comp_def, List.getD_cons_succ, List.getD_cons_zero,
      List.map_cons]
    rw [ih]

/-- Claim C9 (confirmed): for the dataloader read path, with both
`num_shards` and `rank` configured and `rank < num_shards <= #chunks`, the
iterable yields exactly the records of the chunks whose index in sorted
chunk-path order is congruent to `rank` mod `num_shards`; with `num_shards`
or `rank` absent it yields every chunk's records in sorted order; with
`num_shards > #chunks` or `rank >= num_shards` construction fails with an
`AssertionError` (the code's bare `assert` statements). -/
theorem claimC9 (contents : String → List Record) (row_group : List String)
    (ns r : Nat) :
    ((ns ≤ row_group.length ∧ r < ns) →
      Except.map iterateAll (datasetInit contents row_group (some ns) (some r) none) =
        .ok ((((List.range row_group.length).filter (fun i => i % ns == r)).map
          (fun i => contents ((sortLe strLeB row_group).getD i ""))).flatten)) ∧
    (∀ (nso ro : Option Nat), nso = none ∨ ro = none →
      Except.map iterateAll (datasetInit contents row_group nso ro none) =
        .ok (((sortLe strLeB row_group).map contents).flatten)) ∧
    (row_group.length < ns →
      datasetInit contents row_group (some ns) (some r) none =
        .error (.assertionError "num_shards should be not larger than partitions.")) ∧
    (ns ≤ row_group.length → ns ≤ r →
      datasetInit contents row_group (some ns) (some r) none =
        .error (.assertionError "shard index should be included in [0,num_shard).")) := by
  have hsl : (sortLe strLeB row_group).length = row_group.length :=
    sortLe_length _ _
  refine ⟨?_, ?_, ?_, ?_⟩
  · rintro ⟨hle, hlt⟩
    simp only [datasetInit]
    rw [if_neg (not_not_intro (by omega : ns ≤ (sortLe strLeB row_group).length)),
        if_neg (not_not_intro hlt)]
    simp only [Except.map]
    rw [iterateAll_no_transform, List.drop_zero, hsl]
  · rintro nso ro (rfl | rfl)
    · cases ro with
      | none =>
        simp only [datasetInit, Except.map]
        rw [iterateAll_no_transform, List.drop_zero, range_map_getD]
      | some r2 =>
        simp only [datasetInit, Except.map]
        rw [iterateAll_no_transform, List.drop_zero, range_map_getD]
    · cases nso with
      | none =>
        simp only [datasetInit, Except.map]
        rw [iterateAll_no_transform, List.drop_zero, range_map_getD]
      | some ns2 =>
        simp only [datasetInit, Except.map]
        rw [iterateAll_no_transform, List.drop_zero, range_map_getD]
  · intro hgt
    simp only [datasetInit]
    rw [if_pos (by omega : ¬ ns ≤ (sortLe strLeB row_group).length)]
  · intro hle hge
    simp only [datasetInit]
    rw [if_neg (not_not_intro (by omega : ns ≤ (sortLe strLeB row_group).length)),
        if_pos (by omega : ¬ r < ns)]

theorem claimC9_witness :
    Except.map iterateAll
        (datasetInit (fun _ => ([] : List Record)) ["b", "a"] (some 2) (some 1) none) =
      .ok ((((List.range (["b", "a"] : List String).length).filter (fun i => i % 2 == 1)).map
        (fun i => (fun _ => ([] : List Record)) ((sortLe strLeB ["b", "a"]).getD i ""))).flatten) ∧
    Except.map iterateAll
        (datasetInit (fun _ => ([] : List Record)) ["b", "a"] none (some 1) none) =
      .ok (((sortLe strLeB ["b", "a"]).map (fun _ => ([] : List Record))).flatten) ∧
    datasetInit (fun _ => ([] : List Record)) ["b", "a"] (some 3) (some 1) none =
      .error (.assertionError "num_shards should be not larger than partitions.") ∧
    datasetInit (fun _ => ([] : List Record)) ["b", "a"] (some 2) (some 2) none =
      .error (.assertionError "shard index should be included in [0,num_shard).") :=
  ⟨(claimC9 (fun _ => []) ["b", "a"] 2 1).1 ⟨by decide, by decide⟩,
   (claimC9 (fun _ => []) ["b", "a"] 0 0).2.1 none (some 1) (Or.inl rfl),
   (claimC9 (fun _ => []) ["b", "a"] 3 1).2.2.1 (by decide),
   (claimC9 (fun _ => []) ["b", "a"] 2 2).2.2.2 (by decide) (by decide)⟩
